import Mathlib

/-!
Verification development for the technical-analysis signal pipeline
(`src/analysis/technical_analysis.py`, `src/analysis/support_resistance.py`,
`src/analysis/options_analysis.py`).

Python floats are modelled as rationals (`ℚ`): every comparison and
arithmetic operation appearing in the claims is exact at the magnitudes the
code works with, and the claims under study are about comparison/branching
behaviour, not float error.  Python's `round` builtin (banker's rounding,
i.e. round-half-to-even) is modelled by `pyRound` below.
-/

/-- Model of Python's builtin `round(q)`: round half to even (banker's rounding).
Written with `Rat.floor` (rather than the `Int.floor` notation) so that the
definition evaluates by kernel reduction on concrete inputs. -/
def pyRound (q : ℚ) : ℤ :=
  if q - Rat.floor q < 1/2 then Rat.floor q
  else if 1/2 < q - Rat.floor q then Rat.floor q + 1
  else if Rat.floor q % 2 = 0 then Rat.floor q else Rat.floor q + 1

/-- Model of Python's `round(q, 2)`: round to two decimal places, half to even. -/
def round2 (q : ℚ) : ℚ := (pyRound (q * 100) : ℚ) / 100

theorem ratFloor_eq_intFloor (q : ℚ) : (Rat.floor q : ℤ) = ⌊q⌋ := by
  rw [Rat.floor_def', ← Rat.floor_def]

theorem pyRound_cases (q : ℚ) : pyRound q = ⌊q⌋ ∨ pyRound q = ⌊q⌋ + 1 := by
  unfold pyRound
  simp only [ratFloor_eq_intFloor]
  split_ifs <;> simp

theorem pyRound_sub_le (q : ℚ) : |(pyRound q : ℚ) - q| ≤ 1/2 := by
  have hfl : (⌊q⌋ : ℚ) ≤ q := Int.floor_le q
  have hfu : q < ⌊q⌋ + 1 := Int.lt_floor_add_one q
  unfold pyRound
  simp only [ratFloor_eq_intFloor]
  split_ifs with h1 h2 h3 <;>
    · rw [abs_le]
      push_cast
      constructor <;> linarith

theorem pyRound_mono {x y : ℚ} (h : x ≤ y) : pyRound x ≤ pyRound y := by
  rcases lt_or_le (⌊x⌋ : ℤ) ⌊y⌋ with hf | hf
  · rcases pyRound_cases x with hx | hx <;> rcases pyRound_cases y with hy | hy <;>
      omega
  · have hf' : ⌊x⌋ = ⌊y⌋ := le_antisymm (Int.floor_le_floor h) hf
    have hfr : x - ⌊x⌋ ≤ y - (⌊y⌋ : ℚ) := by
      rw [← hf']
      linarith
    unfold pyRound
    simp only [ratFloor_eq_intFloor]
    rw [hf']
    split_ifs <;> first
      | omega
      | (exfalso; rw [← hf'] at *; linarith)

theorem round2_sub_le (q : ℚ) : |round2 q - q| ≤ 1/200 := by
  have h := pyRound_sub_le (q * 100)
  unfold round2
  rw [abs_le] at *
  constructor <;> [linarith [h.1]; linarith [h.2]]

theorem round2_mono {x y : ℚ} (h : x ≤ y) : round2 x ≤ round2 y := by
  unfold round2
  have := pyRound_mono (show x * 100 ≤ y * 100 by linarith)
  have : ((pyRound (x * 100) : ℚ)) ≤ ((pyRound (y * 100) : ℚ)) := by exact_mod_cast this
  linarith

theorem round2_lt_of_lt {x c : ℚ} (h : x < c) : round2 x < c + 1/200 := by
  have := (abs_le.mp (round2_sub_le x)).2
  linarith

theorem lt_round2_of_lt {x c : ℚ} (h : c < x) : c - 1/200 < round2 x := by
  have := (abs_le.mp (round2_sub_le x)).1
  linarith

namespace TechnicalAnalysis

/-- One vote cast by a sub-signal of `TechnicalAnalysis.generate_signals`:
the sub-signal increments `buy_signals`, increments `sell_signals`, or does
neither ("HOLD"). -/
inductive Vote
  | buy
  | sell
  | hold
deriving DecidableEq, Repr

/-- One row of the indicator frame consumed by
`TechnicalAnalysis.generate_signals` (technical_analysis.py lines 185-340):
only the columns the voter reads.  Cells are modelled as rationals (pandas
float cells).  `volume` and `volume_sma` are only meaningful on frames whose
`hasVolume` flag is set (frames whose pandas columns include `volume` and
`volume_sma`). -/
structure IndRow where
  rsi : ℚ
  macd : ℚ
  macd_signal : ℚ
  adx : ℚ
  adx_pos : ℚ
  adx_neg : ℚ
  close : ℚ
  sma_50 : ℚ
  sma_200 : ℚ
  bb_lower : ℚ
  bb_upper : ℚ
  stoch_k : ℚ
  stoch_d : ℚ
  ema_21 : ℚ
  atr : ℚ
  volume : ℚ
  volume_sma : ℚ
  technical_trend_score : ℚ
deriving DecidableEq, Repr

/-- An indicator frame as seen by the Signal Voter: the rows plus whether the
`volume` and `volume_sma` columns are present. -/
structure SignalFrame where
  rows : List IndRow
  hasVolume : Bool
deriving DecidableEq, Repr

/-- Sub-signal 1, RSI (lines 211-219). -/
def rsi_vote (latest : IndRow) : Vote :=
  if latest.rsi < 30 then .buy else if latest.rsi > 70 then .sell else .hold

/-- Sub-signal 2, MACD vs its signal line (lines 221-229). -/
def macd_vote (latest : IndRow) : Vote :=
  if latest.macd > latest.macd_signal then .buy
  else if latest.macd < latest.macd_signal then .sell
  else .hold

/-- Sub-signal 3, ADX trend strength (lines 231-241). -/
def adx_vote (latest : IndRow) : Vote :=
  if latest.adx > 25 then
    (if latest.adx_pos > latest.adx_neg then .buy else .sell)
  else .hold

/-- Sub-signal 4, moving-average alignment (lines 243-251). -/
def ma_vote (latest : IndRow) : Vote :=
  if latest.close > latest.sma_50 ∧ latest.sma_50 > latest.sma_200 then .buy
  else if latest.close < latest.sma_50 ∧ latest.sma_50 < latest.sma_200 then .sell
  else .hold

/-- Sub-signal 5, Bollinger band touch (lines 253-261). -/
def bb_vote (latest : IndRow) : Vote :=
  if latest.close ≤ latest.bb_lower then .buy
  else if latest.close ≥ latest.bb_upper then .sell
  else .hold

/-- Sub-signal 6, stochastic oscillator (lines 263-271). -/
def stoch_vote (latest : IndRow) : Vote :=
  if latest.stoch_k < 20 ∧ latest.stoch_d < 20 then .buy
  else if latest.stoch_k > 80 ∧ latest.stoch_d > 80 then .sell
  else .hold

/-- Sub-signal 7, price vs EMA21 (lines 273-281). -/
def ema_vote (latest : IndRow) : Vote :=
  if latest.close > latest.ema_21 then .buy
  else if latest.close < latest.ema_21 then .sell
  else .hold

/-- Sub-signal 8, volatility breakout (lines 283-296): needs a previous bar,
otherwise neutral. -/
def volatility_vote (latest : IndRow) (prev_close : Option ℚ) : Vote :=
  match prev_close with
  | some pc =>
    if |latest.close - pc| > 3/2 * latest.atr then
      (if latest.close > pc then .buy else .sell)
    else .hold
  | none => .hold

/-- Sub-signal 9, volume confirmation (lines 298-311), evaluated only on
frames with volume columns.  The Python code reads `df.iloc[-2]` without a
length guard: on a one-row frame this raises `IndexError` as soon as
`volume > 1.5 * volume_sma` makes the conjunction reach its second operand;
the raise is modelled as `none`. -/
def volume_vote (latest : IndRow) (prev_close : Option ℚ) : Option Vote :=
  match prev_close with
  | some pc =>
    some (if latest.volume > 3/2 * latest.volume_sma ∧ latest.close > pc then .buy
          else if latest.volume > 3/2 * latest.volume_sma ∧ latest.close < pc then .sell
          else .hold)
  | none =>
    if latest.volume > 3/2 * latest.volume_sma then none else some .hold

/-- Sub-signal 10, technical trend score (lines 313-321). -/
def trend_score_vote (latest : IndRow) : Vote :=
  if latest.technical_trend_score > 70 then .buy
  else if latest.technical_trend_score < 30 then .sell
  else .hold

/-- Close of the bar before the latest one (`df.iloc[-2]['close']`),
when the frame has at least two rows. -/
def frame_prev_close (f : SignalFrame) : Option ℚ :=
  if 1 < f.rows.length then (f.rows[f.rows.length - 2]?).map (·.close) else none

/-- The list of votes cast on a non-empty frame, in source order.  Its length
is the `total_signals` counter of the source: 10 with volume data, 9 without
(line 311 decrements the counter when the volume columns are missing).
`none` models the `IndexError` of sub-signal 9 on a one-row frame. -/
def frame_votes (f : SignalFrame) : Option (List Vote) :=
  match f.rows.getLast? with
  | none => none
  | some latest =>
    let pc := frame_prev_close f
    let base := [rsi_vote latest, macd_vote latest, adx_vote latest, ma_vote latest,
                 bb_vote latest, stoch_vote latest, ema_vote latest,
                 volatility_vote latest pc]
    if f.hasVolume then
      match volume_vote latest pc with
      | none => none
      | some v => some (base ++ [v, trend_score_vote latest])
    else
      some (base ++ [trend_score_vote latest])

/-- Number of BUY votes among a vote list (`buy_signals`). -/
def buy_count (vs : List Vote) : ℕ := vs.countP (fun v => v = Vote.buy)

/-- Number of SELL votes among a vote list (`sell_signals`). -/
def sell_count (vs : List Vote) : ℕ := vs.countP (fun v => v = Vote.sell)

/-- Model of `TechnicalAnalysis.generate_signals` (technical_analysis.py lines
185-340), restricted to the `(signal, confidence)` pair (the returned frame
copy just annotates the same data).  The empty frame short-circuits to
`("HOLD", 0)`; `none` models the one uncaught `IndexError` path of
sub-signal 9.  `0.3` and `1.5` are exact in binary floating point at the
integer vote counts involved, so rationals are a faithful model of every
branch condition. -/
def generate_signals (f : SignalFrame) : Option (String × ℚ) :=
  if f.rows.isEmpty then some ("HOLD", 0)
  else
    match frame_votes f with
    | none => none
    | some vs =>
      let buy_signals := buy_count vs
      let sell_signals := sell_count vs
      let total_signals := vs.length
      if buy_signals > sell_signals ∧ (buy_signals : ℚ) > (total_signals : ℚ) * (3/10) then
        some ("BUY", (buy_signals : ℚ) / (total_signals : ℚ) * 100)
      else if sell_signals > buy_signals ∧ (sell_signals : ℚ) > (total_signals : ℚ) * (3/10) then
        some ("SELL", (sell_signals : ℚ) / (total_signals : ℚ) * 100)
      else
        some ("HOLD", 50)

end TechnicalAnalysis

namespace TechnicalAnalysis

/-- A cell of the caller's `date` column: either a raw (string) value or an
already-parsed datetime.  `pd.to_datetime` maps raw values to their parsed
form and is the identity on parsed ones; the payload identifies the date. -/
inductive DateCell
  | raw (v : ℕ)
  | parsed (v : ℕ)
deriving DecidableEq, Repr

/-- Model of `pd.to_datetime` on one cell. -/
def pd_to_datetime : DateCell → DateCell
  | .raw v => .parsed v
  | .parsed v => .parsed v

/-- The caller's OHLCV DataFrame: optional `date` column, price columns, and
an optional `volume` column (column cells as rationals). -/
structure DataFrame where
  dates : Option (List DateCell)
  opens : List ℚ
  highs : List ℚ
  lows : List ℚ
  closes : List ℚ
  volumes : Option (List ℚ)
deriving DecidableEq, Repr

/-- Number of rows, read off the `close` column. -/
def DataFrame.rowCount (df : DataFrame) : ℕ := df.closes.length

/-- Lines 34-35 of technical_analysis.py run BEFORE the `df.copy()` of line
38 and assign `pd.to_datetime(df['date'])` into the caller's frame whenever a
`date` column exists.  This is the caller's frame after `calculate_indicators`
returns: unchanged on the empty-frame early return (line 27), otherwise with
the date column converted in place and every other column untouched. -/
def calculate_indicators_caller_frame (df : DataFrame) : DataFrame :=
  if df.rowCount = 0 then df
  else { df with dates := df.dates.map (List.map pd_to_datetime) }

/-- Build a column of `n` cells from an indexed formula (`none` = NaN). -/
def mkCol (n : ℕ) (f : ℕ → Option ℚ) : List (Option ℚ) := (List.range n).map f

/-- The window of the last `w` values ending at index `i` (inclusive). -/
def windowAt (xs : List ℚ) (i w : ℕ) : List ℚ := (xs.take (i + 1)).drop (i + 1 - w)

/-- Mean of a list (`0` on the empty list; windows are non-empty in use). -/
def colMean (xs : List ℚ) : ℚ := xs.sum / xs.length

/-- Rolling mean with window `w` and `min_periods = w`
(`SMAIndicator(...).sma_indicator()` of the `ta` library). -/
def smaCol (w : ℕ) (xs : List ℚ) : List (Option ℚ) :=
  mkCol xs.length (fun i => if w ≤ i + 1 then some (colMean (windowAt xs i w)) else none)

/-- The recursion of `pandas.Series.ewm(adjust=False).mean()` continued from
a given previous value: `y = α*x + (1-α)*y_prev`. -/
def ewmFrom (α : ℚ) : ℚ → List ℚ → List ℚ
  | _, [] => []
  | prev, x :: rest =>
    let y := α * x + (1 - α) * prev
    y :: ewmFrom α y rest

/-- `pandas.Series.ewm(adjust=False).mean()`: seeded with the first value. -/
def ewmList (α : ℚ) : List ℚ → List ℚ
  | [] => []
  | x :: rest => x :: ewmFrom α x rest

/-- `EMAIndicator(...).ema_indicator()` of the `ta` library:
`ewm(span=w, min_periods=w, adjust=False).mean()`. -/
def emaCol (w : ℕ) (xs : List ℚ) : List (Option ℚ) :=
  mkCol xs.length (fun i =>
    if w ≤ i + 1 then some ((ewmList (2 / ((w : ℚ) + 1)) xs).getD i 0) else none)

/-- First differences `x_i - x_{i-1}` (`Series.diff(1)` without its leading
NaN), aligned to original indices `1..n-1`. -/
def diffList (xs : List ℚ) : List ℚ := List.zipWith (fun a b => a - b) (xs.drop 1) xs

/-- Model of `ta.momentum.RSIIndicator` (third-party library): Wilder
smoothing (`ewm(alpha=1/w, min_periods=w, adjust=False)`) of gains and
losses; a zero smoothed loss yields RSI 100, the float limit of
`100 - 100/(1+rs)` at `rs = ∞`. -/
def rsiCol (w : ℕ) (closes : List ℚ) : List (Option ℚ) :=
  let ups := (diffList closes).map (fun d => max d 0)
  let downs := (diffList closes).map (fun d => max (-d) 0)
  let au := ewmList (1 / (w : ℚ)) ups
  let ad := ewmList (1 / (w : ℚ)) downs
  mkCol closes.length (fun i =>
    if w ≤ i then
      let u := au.getD (i - 1) 0
      let d := ad.getD (i - 1) 0
      some (if d = 0 then 100 else 100 - 100 / (1 + u / d))
    else none)

/-- MACD line of `ta.trend.MACD`: fast EMA minus slow EMA, valid once the
slow window is full. -/
def macdCol (fast slow : ℕ) (closes : List ℚ) : List (Option ℚ) :=
  let fastE := ewmList (2 / ((fast : ℚ) + 1)) closes
  let slowE := ewmList (2 / ((slow : ℚ) + 1)) closes
  mkCol closes.length (fun i =>
    if slow ≤ i + 1 then some (fastE.getD i 0 - slowE.getD i 0) else none)

/-- MACD signal line: EMA of the valid MACD values. -/
def macdSignalCol (fast slow sign : ℕ) (closes : List ℚ) : List (Option ℚ) :=
  let fastE := ewmList (2 / ((fast : ℚ) + 1)) closes
  let slowE := ewmList (2 / ((slow : ℚ) + 1)) closes
  let macdVals := (List.zipWith (fun a b => a - b) fastE slowE).drop (slow - 1)
  let sigE := ewmList (2 / ((sign : ℚ) + 1)) macdVals
  mkCol closes.length (fun i =>
    if slow + sign - 1 ≤ i + 1 then some (sigE.getD (i + 1 - slow) 0) else none)

/-- True range series (`max(high-low, |high-prev_close|, |low-prev_close|)`,
`high-low` for the first bar). -/
def trueRangeList (highs lows closes : List ℚ) : List ℚ :=
  (List.range highs.length).map (fun i =>
    let h := highs.getD i 0
    let l := lows.getD i 0
    if i = 0 then h - l
    else
      let pc := closes.getD (i - 1) 0
      max (h - l) (max |h - pc| |l - pc|))

/-- Model of `ta.volatility.AverageTrueRange` (third-party library): Wilder's
running ATR `atr_i = (atr_{i-1}*(w-1) + tr_i)/w`, seeded with the mean of the
first `w` true ranges; the library emits zeros before the seed index. -/
def atrCol (w : ℕ) (highs lows closes : List ℚ) : List (Option ℚ) :=
  let tr := trueRangeList highs lows closes
  let seed := colMean (tr.take w)
  let seq := seed :: ewmFrom (1 / (w : ℚ)) seed (tr.drop w)
  mkCol highs.length (fun i =>
    if w ≤ i + 1 then some (seq.getD (i + 1 - w) 0) else some 0)

/-- Directional movement (+DM when `up > down ∧ up > 0`, mirrored for -DM). -/
def dmList (pos : Bool) (highs lows : List ℚ) : List ℚ :=
  (List.range highs.length).map (fun i =>
    if i = 0 then 0
    else
      let up := highs.getD i 0 - highs.getD (i - 1) 0
      let down := lows.getD (i - 1) 0 - lows.getD i 0
      if pos then (if up > down ∧ up > 0 then up else 0)
      else (if down > up ∧ down > 0 then down else 0))

/-- Model of `ta.trend.ADXIndicator` (third-party library): Wilder-smoothed
+DI and -DI from smoothed directional movement over smoothed true range, DX from
their normalized difference, ADX as the Wilder smoothing of DX.  Quotients
guard a zero denominator (the float code produces NaN there, later
back-filled). -/
def adxCols (w : ℕ) (highs lows closes : List ℚ) :
    List (Option ℚ) × List (Option ℚ) × List (Option ℚ) :=
  let n := highs.length
  let sTr := ewmList (1 / (w : ℚ)) (trueRangeList highs lows closes)
  let sPlus := ewmList (1 / (w : ℚ)) (dmList true highs lows)
  let sMinus := ewmList (1 / (w : ℚ)) (dmList false highs lows)
  let diPlus := (List.range n).map (fun i =>
    if sTr.getD i 0 = 0 then 0 else 100 * sPlus.getD i 0 / sTr.getD i 0)
  let diMinus := (List.range n).map (fun i =>
    if sTr.getD i 0 = 0 then 0 else 100 * sMinus.getD i 0 / sTr.getD i 0)
  let dx := (List.range n).map (fun i =>
    let p := diPlus.getD i 0
    let m := diMinus.getD i 0
    if p + m = 0 then 0 else 100 * |p - m| / (p + m))
  let adxS := ewmList (1 / (w : ℚ)) dx
  (mkCol n (fun i => if w ≤ i + 1 then some (adxS.getD i 0) else none),
   mkCol n (fun i => if w ≤ i + 1 then some (diPlus.getD i 0) else none),
   mkCol n (fun i => if w ≤ i + 1 then some (diMinus.getD i 0) else none))

/-- Rolling population standard deviation (`rolling(w).std(ddof=0)` as used
by `ta.volatility.BollingerBands`), with `Rat.sqrt` standing in for the
irrational square root. -/
def rollingStd (w : ℕ) (xs : List ℚ) (i : ℕ) : ℚ :=
  let win := windowAt xs i w
  let m := colMean win
  Rat.sqrt (colMean (win.map (fun x => (x - m) ^ 2)))

/-- Bollinger band columns (upper, middle, lower) with `window_dev = 2`. -/
def bbCols (w : ℕ) (closes : List ℚ) :
    List (Option ℚ) × List (Option ℚ) × List (Option ℚ) :=
  (mkCol closes.length (fun i =>
     if w ≤ i + 1 then some (colMean (windowAt closes i w) + 2 * rollingStd w closes i) else none),
   smaCol w closes,
   mkCol closes.length (fun i =>
     if w ≤ i + 1 then some (colMean (windowAt closes i w) - 2 * rollingStd w closes i) else none))

/-- Pointwise combination of two option columns. -/
def colMap2 (f : ℚ → ℚ → ℚ) (a b : List (Option ℚ)) (n : ℕ) : List (Option ℚ) :=
  mkCol n (fun i =>
    match a.getD i none, b.getD i none with
    | some x, some y => some (f x y)
    | _, _ => none)

/-- Pointwise map of an option column. -/
def colMap (f : ℚ → ℚ) (a : List (Option ℚ)) (n : ℕ) : List (Option ℚ) :=
  mkCol n (fun i => (a.getD i none).map f)

/-- Pointwise combination of three option columns. -/
def colMap3 (f : ℚ → ℚ → ℚ → ℚ) (a b c : List (Option ℚ)) (n : ℕ) : List (Option ℚ) :=
  mkCol n (fun i =>
    match a.getD i none, b.getD i none, c.getD i none with
    | some x, some y, some z => some (f x y z)
    | _, _, _ => none)

/-- On-balance volume of `ta.volume.OnBalanceVolumeIndicator`: cumulative sum
of the volume signed by `np.where(close < close.shift(1), -volume, volume)`
(so the first bar and price ties contribute `+volume`). -/
def obvCol (closes volumes : List ℚ) : List (Option ℚ) :=
  let signed := (List.range closes.length).map (fun i =>
    if i = 0 then volumes.getD 0 0
    else if closes.getD i 0 < closes.getD (i - 1) 0 then -(volumes.getD i 0)
    else volumes.getD i 0)
  let rec cumsum : List ℚ → ℚ → List ℚ
    | [], _ => []
    | x :: rest, acc => (acc + x) :: cumsum rest (acc + x)
  (cumsum signed 0).map some

/-- `Series.pct_change() * 100` (ℚ division by zero gives 0 where the float
code gives ±inf; no claim depends on those cells). -/
def pctChangeCol (xs : List ℚ) : List (Option ℚ) :=
  mkCol xs.length (fun i =>
    if i = 0 then none
    else some ((xs.getD i 0 - xs.getD (i - 1) 0) / xs.getD (i - 1) 0 * 100))

/-- `close / close.shift(k) - 1`. -/
def momentumCol (k : ℕ) (xs : List ℚ) : List (Option ℚ) :=
  mkCol xs.length (fun i =>
    if k ≤ i then some (xs.getD i 0 / xs.getD (i - k) 0 - 1) else none)

/-- Stochastic %K of `ta.momentum.StochasticOscillator`:
`100*(close - rolling_min(low))/(rolling_max(high) - rolling_min(low))`. -/
def stochKRaw (w : ℕ) (highs lows closes : List ℚ) (i : ℕ) : ℚ :=
  let lo := ((windowAt lows i w).foldr min (lows.getD i 0))
  let hi := ((windowAt highs i w).foldr max (highs.getD i 0))
  if hi - lo = 0 then 0 else 100 * (closes.getD i 0 - lo) / (hi - lo)

/-- Stochastic %K column (valid once the window is full). -/
def stochKCol (w : ℕ) (highs lows closes : List ℚ) : List (Option ℚ) :=
  mkCol closes.length (fun i =>
    if w ≤ i + 1 then some (stochKRaw w highs lows closes i) else none)

/-- Stochastic %D: rolling mean of `smooth` valid %K values. -/
def stochDCol (w smooth : ℕ) (highs lows closes : List ℚ) : List (Option ℚ) :=
  mkCol closes.length (fun i =>
    if w + smooth - 1 ≤ i + 1 then
      some (colMean ((List.range' (i + 1 - smooth) smooth).map
        (stochKRaw w highs lows closes)))
    else none)

/-- `np.sign`. -/
def qSign (x : ℚ) : ℚ := if x > 0 then 1 else if x < 0 then -1 else 0

/-- Backward fill (`fillna(method='bfill')`): every NaN takes the next valid
value below it, trailing NaNs stay NaN. -/
def bfill : List (Option ℚ) → List (Option ℚ)
  | [] => []
  | x :: rest =>
    let r := bfill rest
    (match x with
     | some v => some v
     | none => r.headD none) :: r

/-- The output frame of `calculate_indicators`: the (date-converted) input
columns plus every indicator column added by technical_analysis.py lines
40-176.  Volume-derived columns exist only when the input has a volume
column, mirroring the `if 'volume' in df_result.columns` guard. -/
structure IndicatorFrame where
  base : DataFrame
  rsi : List (Option ℚ)
  macd : List (Option ℚ)
  macd_signal : List (Option ℚ)
  macd_diff : List (Option ℚ)
  adx : List (Option ℚ)
  adx_pos : List (Option ℚ)
  adx_neg : List (Option ℚ)
  sma_20 : List (Option ℚ)
  sma_50 : List (Option ℚ)
  sma_200 : List (Option ℚ)
  ema_9 : List (Option ℚ)
  ema_21 : List (Option ℚ)
  bb_upper : List (Option ℚ)
  bb_middle : List (Option ℚ)
  bb_lower : List (Option ℚ)
  bb_width : List (Option ℚ)
  atr : List (Option ℚ)
  volatility_pct : List (Option ℚ)
  obv : Option (List (Option ℚ))
  volume_sma : Option (List (Option ℚ))
  volume_change_pct : Option (List (Option ℚ))
  stoch_k : List (Option ℚ)
  stoch_d : List (Option ℚ)
  price_change_pct : List (Option ℚ)
  momentum_1d : List (Option ℚ)
  momentum_5d : List (Option ℚ)
  momentum_20d : List (Option ℚ)
  adx_norm : List (Option ℚ)
  macd_norm : List (Option ℚ)
  rsi_norm : List (Option ℚ)
  technical_trend_score : List (Option ℚ)
  momentum_score : List (Option ℚ)
deriving DecidableEq, Repr

/-- Row count of the output frame. -/
def IndicatorFrame.rowCount (fr : IndicatorFrame) : ℕ := fr.base.closes.length

/-- The non-empty path of `calculate_indicators` (technical_analysis.py lines
40-176), applied to the date-converted frame.  All periods are the
data-size-adapted values of lines 46-50, 82-84, 90-91, 97, 105, 124, 131-132
and 146-148 (settings: RSI 14, MACD 12/26/9, ADX 14, volatility 20).  Every
column is finally backward-filled (line 176). -/
def calcIndicatorsCore (df : DataFrame) : IndicatorFrame :=
  let n := df.closes.length
  let rsi_period := min 14 (max 2 (n / 3))
  let adx_period := min 14 (max 2 (n / 3))
  let macd_fast := min 12 (max 2 (n / 5))
  let macd_slow := min 26 (max 3 (n / 4))
  let macd_sig := min 9 (max 2 (n / 6))
  let sma_20_period := min 20 (max 2 (n / 3))
  let sma_50_period := min 50 (max 3 (n / 2))
  let sma_200_period := min 200 (max 5 (n - 5))
  let ema_9_period := min 9 (max 2 (n / 4))
  let ema_21_period := min 21 (max 3 (n / 3))
  let bb_period := min 20 (max 2 (n / 3))
  let atr_period := min 20 (max 2 (n / 3))
  let vol_sma_period := min 20 (max 2 (n / 3))
  let stoch_period := min 14 (max 2 (n / 3))
  let stoch_smooth := min 3 (max 1 (n / 10))
  let mom_1d_period := min 1 (max 1 (n / 20))
  let mom_5d_period := min 5 (max 1 (n / 10))
  let mom_20d_period := min 20 (max 1 (n / 5))
  let rsi := rsiCol rsi_period df.closes
  let macd := macdCol macd_fast macd_slow df.closes
  let macd_signal := macdSignalCol macd_fast macd_slow macd_sig df.closes
  let macd_diff := colMap2 (fun a b => a - b) macd macd_signal n
  let adx3 := adxCols adx_period df.highs df.lows df.closes
  let bb3 := bbCols bb_period df.closes
  let atr := atrCol atr_period df.highs df.lows df.closes
  let closeCol : List (Option ℚ) := df.closes.map some
  let adx_norm := adx3.1
  let macd_norm := colMap2 (fun d c => min 100 (max 0 (50 + d / c * 500))) macd_diff closeCol n
  let rsi_norm := rsi
  let m1 := momentumCol mom_1d_period df.closes
  let m5 := momentumCol mom_5d_period df.closes
  let m20 := momentumCol mom_20d_period df.closes
  { base := df
    rsi := bfill rsi
    macd := bfill macd
    macd_signal := bfill macd_signal
    macd_diff := bfill macd_diff
    adx := bfill adx3.1
    adx_pos := bfill adx3.2.1
    adx_neg := bfill adx3.2.2
    sma_20 := bfill (smaCol sma_20_period df.closes)
    sma_50 := bfill (smaCol sma_50_period df.closes)
    sma_200 := bfill (smaCol sma_200_period df.closes)
    ema_9 := bfill (emaCol ema_9_period df.closes)
    ema_21 := bfill (emaCol ema_21_period df.closes)
    bb_upper := bfill bb3.1
    bb_middle := bfill bb3.2.1
    bb_lower := bfill bb3.2.2
    bb_width := bfill (colMap3 (fun u l m => (u - l) / m) bb3.1 bb3.2.2 bb3.2.1 n)
    atr := bfill atr
    volatility_pct := bfill (colMap2 (fun a c => a / c * 100) atr closeCol n)
    obv := df.volumes.map (fun vols => bfill (obvCol df.closes vols))
    volume_sma := df.volumes.map (fun vols => bfill (smaCol vol_sma_period vols))
    volume_change_pct := df.volumes.map (fun vols => bfill (pctChangeCol vols))
    stoch_k := bfill (stochKCol stoch_period df.highs df.lows df.closes)
    stoch_d := bfill (stochDCol stoch_period stoch_smooth df.highs df.lows df.closes)
    price_change_pct := bfill (pctChangeCol df.closes)
    momentum_1d := bfill m1
    momentum_5d := bfill m5
    momentum_20d := bfill m20
    adx_norm := bfill adx_norm
    macd_norm := bfill macd_norm
    rsi_norm := bfill rsi_norm
    technical_trend_score := bfill (colMap3
      (fun a m r => 1/2 * a + 3/10 * m + 1/5 * r) adx_norm macd_norm rsi_norm n)
    momentum_score := bfill (colMap3
      (fun a b c => 1/2 * qSign a * Rat.sqrt |a| + 3/10 * qSign b * Rat.sqrt |b| +
        1/5 * qSign c * Rat.sqrt |c|) m1 m5 m20 n) }

/-- The empty-input early return of line 27-29: the input frame itself, with
no indicator columns. -/
def emptyIndicatorFrame (df : DataFrame) : IndicatorFrame :=
  { base := df
    rsi := [], macd := [], macd_signal := [], macd_diff := [], adx := [], adx_pos := []
    adx_neg := [], sma_20 := [], sma_50 := [], sma_200 := [], ema_9 := [], ema_21 := []
    bb_upper := [], bb_middle := [], bb_lower := [], bb_width := [], atr := []
    volatility_pct := [], obv := none, volume_sma := none, volume_change_pct := none
    stoch_k := [], stoch_d := [], price_change_pct := [], momentum_1d := []
    momentum_5d := [], momentum_20d := [], adx_norm := [], macd_norm := []
    rsi_norm := [], technical_trend_score := [], momentum_score := [] }

/-- Model of `TechnicalAnalysis.calculate_indicators` (technical_analysis.py
lines 18-183).  The model is total: the Python body's `try` block is pure
numeric pandas/ta code whose exceptions would in any case be swallowed by the
`except` of line 180, which still returns the same-length partial frame. -/
def calculate_indicators (df : DataFrame) : IndicatorFrame :=
  if df.rowCount = 0 then emptyIndicatorFrame df
  else calcIndicatorsCore { df with dates := df.dates.map (List.map pd_to_datetime) }

end TechnicalAnalysis

namespace SupportResistanceCalculator

/-- One OHLC row of the frame consumed by the support/resistance engine
(support_resistance.py): only the columns it reads.  `atr` is only meaningful
on frames whose `hasAtr` flag is set. -/
structure SRRow where
  low : ℚ
  high : ℚ
  close : ℚ
  atr : ℚ
deriving DecidableEq, Repr

/-- A frame for the support/resistance engine: rows plus whether the frame
has an `atr` column. -/
structure SRFrame where
  rows : List SRRow
  hasAtr : Bool
deriving DecidableEq, Repr

/-- Arithmetic mean (`np.mean`) of a list. -/
def listMean (xs : List ℚ) : ℚ := xs.sum / xs.length

/-- Model of `scipy.signal.argrelextrema(data, comparator, order=window)` with
the default boundary mode `clip`: index `i` is kept when the comparison with
every neighbour at distance `1..order` holds, indices clipped into
`[0, n-1]`. -/
def argrelextrema (xs : List ℚ) (cmp : ℚ → ℚ → Bool) (order : ℕ) : List ℕ :=
  (List.range xs.length).filter (fun i =>
    (List.range' 1 order).all (fun k =>
      cmp (xs.getD i 0) (xs.getD (min (i + k) (xs.length - 1)) 0) &&
      cmp (xs.getD i 0) (xs.getD (i - k) 0)))

/-- Model of `SupportResistanceCalculator.find_local_extrema`
(support_resistance.py lines 14-48), returning the `low` values at the
detected minima and the `high` values at the detected maxima. -/
def find_local_extrema (f : SRFrame) (window : ℕ) : List ℚ × List ℚ :=
  match f.rows with
  | [] => ([], [])
  | _ =>
    let lows := f.rows.map (·.low)
    let highs := f.rows.map (·.high)
    ((argrelextrema lows (fun a b => a ≤ b) window).map (fun i => lows.getD i 0),
     (argrelextrema highs (fun a b => b ≤ a) window).map (fun i => highs.getD i 0))

/-- The clustering loop of `cluster_levels` (lines 71-89): walk the sorted
levels, extending the current cluster while the gap to its last member is at
most `threshold_pct`% of that member, emitting `np.mean` of each finished
cluster.  `cur` holds the current cluster in reverse (its head is the last
member appended). -/
def cluster_go (threshold_pct : ℚ) (cur : List ℚ) : List ℚ → List ℚ
  | [] => [listMean cur]
  | x :: rest =>
    let prev := cur.headD 0
    if x - prev ≤ prev * threshold_pct / 100 then cluster_go threshold_pct (x :: cur) rest
    else listMean cur :: cluster_go threshold_pct [x] rest

/-- Model of `SupportResistanceCalculator.cluster_levels` (lines 50-91).
Python's stable `sorted` is modelled by insertion sort (kernel-reducible,
unlike merge sort).  `np.mean` of a cluster does not depend on the member
order, so `listMean cur` over the reversed cluster is the source's mean. -/
def cluster_levels (levels : List ℚ) (threshold_pct : ℚ) : List ℚ :=
  match List.insertionSort (· ≤ ·) levels with
  | [] => []
  | x :: xs => cluster_go threshold_pct [x] xs

/-- The latest ATR with the source's fallback (`df['atr'].iloc[-1]` when the
column exists, else `high - low` of the last row); 0 on an empty frame
(unreachable in the source, which checks emptiness first). -/
def latest_atr_of (f : SRFrame) : ℚ :=
  match f.rows.getLast? with
  | none => 0
  | some last => if f.hasAtr then last.atr else last.high - last.low

/-- Model of `SupportResistanceCalculator.calculate_support_resistance`
(support_resistance.py lines 93-157) up to, but not including, the final
rounding to two decimals of lines 150-152.  `min_strength` is accepted and
ignored exactly as in the source.  `nsmallest(3)`/`nlargest(3)` are the three
smallest/largest recent values in order (stable, like the pandas functions). -/
def calculate_support_resistance_preround (f : SRFrame) (window : ℕ)
    (max_levels : ℕ) (threshold_pct : ℚ) : List ℚ × List ℚ :=
  match f.rows.getLast? with
  | none => ([], [])
  | some last =>
    let extrema := find_local_extrema f window
    let recent := f.rows.drop (f.rows.length - 20)
    let recent_lows := (List.insertionSort (· ≤ ·) (recent.map (·.low))).take 3
    let recent_highs := (List.insertionSort (· ≥ ·) (recent.map (·.high))).take 3
    let latest_price := last.close
    let latest_atr := latest_atr_of f
    let support_candidates := extrema.1 ++ recent_lows ++
      [latest_price - latest_atr, latest_price - 2 * latest_atr]
    let resistance_candidates := extrema.2 ++ recent_highs ++
      [latest_price + latest_atr, latest_price + 2 * latest_atr]
    let support_levels := cluster_levels support_candidates threshold_pct
    let resistance_levels := cluster_levels resistance_candidates threshold_pct
    ((List.insertionSort (· ≥ ·) (support_levels.filter (fun l => l < latest_price))).take max_levels,
     (List.insertionSort (· ≤ ·) (resistance_levels.filter (fun l => l > latest_price))).take max_levels)

/-- Model of `SupportResistanceCalculator.calculate_support_resistance`
including the final rounding of each level to two decimal places
(lines 150-152). -/
def calculate_support_resistance (f : SRFrame) (window : ℕ) (max_levels : ℕ)
    (threshold_pct : ℚ) : List ℚ × List ℚ :=
  let pre := calculate_support_resistance_preround f window max_levels threshold_pct
  (pre.1.map round2, pre.2.map round2)

/-- Result of `find_target_and_stop_loss`: the source returns a 3-tuple
`(None, None, 1)` on an empty frame (line 176) and a 4-tuple
`(target, stop, risk_reward, days)` otherwise (line 252), so the result type
has two shapes.  The last component is `days_to_target` in both. -/
inductive TSLResult
  | short (target stop : Option ℚ) (days : ℤ)
  | full (target stop : Option ℚ) (risk_reward : ℚ) (days : ℤ)
deriving DecidableEq, Repr

/-- The `days_to_target` component (last tuple element) of either shape. -/
def TSLResult.days : TSLResult → ℤ
  | .short _ _ d => d
  | .full _ _ _ d => d

/-- The target/stop selection of `find_target_and_stop_loss` (lines 190-228):
nearest levels per signal with ATR fallbacks; `HOLD` (or any other string)
always uses `close ± ATR`.  The support/resistance call uses the method's
default arguments (window 10, max 3 levels, 1.0% clustering). -/
def target_stop (f : SRFrame) (signal : String) : ℚ × ℚ :=
  match f.rows.getLast? with
  | none => (0, 0)
  | some last =>
    let levels := calculate_support_resistance f 10 3 1
    let latest_price := last.close
    let latest_atr := latest_atr_of f
    if signal = "BUY" then
      (levels.2.headD (latest_price + latest_atr), levels.1.headD (latest_price - latest_atr))
    else if signal = "SELL" then
      (levels.1.headD (latest_price - latest_atr), levels.2.headD (latest_price + latest_atr))
    else
      (latest_price + latest_atr, latest_price - latest_atr)

/-- Model of `SupportResistanceCalculator.find_target_and_stop_loss`
(support_resistance.py lines 163-256). -/
def find_target_and_stop_loss (f : SRFrame) (signal : String) (confidence : ℚ) :
    TSLResult :=
  match f.rows.getLast? with
  | none => .short none none 1
  | some last =>
    let ts := target_stop f signal
    let target_price := ts.1
    let stop_loss := ts.2
    let latest_price := last.close
    let price_distance := |target_price - latest_price|
    let daily_volatility := latest_atr_of f
    let days0 : ℤ :=
      if daily_volatility > 0 then max (pyRound (price_distance / daily_volatility)) 1 else 1
    let risk := |latest_price - stop_loss|
    let reward := |target_price - latest_price|
    let risk_reward := if risk > 0 then reward / risk else 0
    let days_to_target := if confidence > 0 then max days0 (pyRound (100 / confidence)) else days0
    .full (some (round2 target_price)) (some (round2 stop_loss)) (round2 risk_reward) days_to_target

end SupportResistanceCalculator

namespace OptionsAnalysis

/-- Model of `OptionsAnalysis.find_atm_strike` (options_analysis.py lines 114-148).
The `None` input case returns `None`; otherwise the price is rounded to the
tier's strike step with Python's banker's rounding. -/
def find_atm_strike (current_price : Option ℚ) : Option ℤ :=
  match current_price with
  | none => none
  | some p =>
    if p < 1000 then some (pyRound (p / 5) * 5)
    else if p < 5000 then some (pyRound (p / 100) * 100)
    else some (pyRound (p / 500) * 500)

/-- The strike step as the specification words it: 5-point steps below 1000,
100-point steps from 1000 to 5000, 500-point steps above 5000.  Written from
the spec's sentence (for the refinement comparison in claim C7), not from the
code: the code's boundary at exactly 5000 falls in the 500 tier instead. -/
def spec_step (p : ℚ) : ℤ :=
  if p < 1000 then 5 else if p ≤ 5000 then 100 else 500

/-- The ATM strike as the specification words it: `round(price/step)*step`. -/
def spec_atm (p : ℚ) : ℤ := pyRound (p / (spec_step p : ℚ)) * spec_step p

/-- Model of `OptionsAnalysis.select_option_strike` (options_analysis.py lines
150-206).  The `symbol` and `expiry_date` arguments of the Python method are
used only for logging / defaulting and do not influence the returned triple,
so they are omitted.  Signals are the Python strings "BUY"/"SELL"/"HOLD"
(any other string takes the `else` branch, as in the source). -/
def select_option_strike (current_price : Option ℚ) (signal : String) :
    Option (ℤ × String × ℤ) :=
  match current_price with
  | none => none
  | some p =>
    match find_atm_strike (some p) with
    | none => none
    | some atm_strike =>
      let option_type :=
        if signal = "BUY" then "CE"
        else if signal = "SELL" then "PE"
        else if p > (atm_strike : ℚ) then "CE" else "PE"
      let selected_strike :=
        if option_type = "CE" then atm_strike + (if p < 1000 then 50 else 100)
        else atm_strike - (if p < 1000 then 50 else 100)
      some (selected_strike, option_type, atm_strike)

/-- A calendar date (`datetime.date`). -/
structure PDate where
  year : ℕ
  month : ℕ
  day : ℕ
deriving DecidableEq, Repr

/-- Gregorian leap-year rule. -/
def isLeap (y : ℕ) : Bool := y % 4 == 0 && (y % 100 != 0 || y % 400 == 0)

/-- Number of days in a month (the source computes it as
`first day of next month - 1 day`). -/
def daysInMonth (y m : ℕ) : ℕ :=
  if m = 2 then (if isLeap y then 29 else 28)
  else if m = 4 ∨ m = 6 ∨ m = 9 ∨ m = 11 then 30 else 31

/-- Day count of a date (a Julian-day-style number, linear in the day of the
month), used only through its value modulo 7. -/
def dayNumber (dt : PDate) : ℕ :=
  let a := (14 - dt.month) / 12
  let y := dt.year + 4800 - a
  let m := dt.month + 12 * a - 3
  dt.day + (153 * m + 2) / 5 + 365 * y + y / 4 - y / 100 + y / 400

/-- Python's `date.weekday()`: Monday = 0 .. Sunday = 6 (Thursday = 3).
Calibrated so that 1970-01-01 (a Thursday) gives 3. -/
def pyWeekday (dt : PDate) : ℕ := (dayNumber dt + 1) % 7

/-- Python's chronological `<` on dates (lexicographic on year, month, day). -/
def PDate.lt (a b : PDate) : Bool :=
  a.year < b.year ||
    (a.year == b.year && (a.month < b.month || (a.month == b.month && a.day < b.day)))

/-- A date is well-formed (month in range and day within the month). -/
def validPDate (dt : PDate) : Prop :=
  1 ≤ dt.month ∧ dt.month ≤ 12 ∧ 1 ≤ dt.day ∧ dt.day ≤ daysInMonth dt.year dt.month

instance (dt : PDate) : Decidable (validPDate dt) := by
  unfold validPDate
  infer_instance

/-- The last Thursday of a month, as the source computes it (lines 40-46):
take the last day of the month and subtract `(weekday - 3) % 7` days, which
Python evaluates as `(weekday + 4) % 7` for weekdays `0..6`. -/
def lastThursday (y m : ℕ) : PDate :=
  let last_day := daysInMonth y m
  let days_to_subtract := (pyWeekday ⟨y, m, last_day⟩ + 4) % 7
  ⟨y, m, last_day - days_to_subtract⟩

/-- The year/month of the month after the given one (lines 34-37). -/
def nextMonth (y m : ℕ) : ℕ × ℕ := if m = 12 then (y + 1, 1) else (y, m + 1)

/-- Model of `OptionsAnalysis.get_nearest_expiry` (options_analysis.py lines
22-71) with the wall clock made explicit: the last Thursday of `today`'s
month, rolled to the next month's last Thursday when it is already past. -/
def get_nearest_expiry (today : PDate) : PDate :=
  let monthly_expiry := lastThursday today.year today.month
  if PDate.lt monthly_expiry today then
    let nm := nextMonth today.year today.month
    lastThursday nm.1 nm.2
  else monthly_expiry

/-- Zero-padded two-digit decimal (`%d`, `%y`). -/
def pad2 (n : ℕ) : String := if n < 10 then "0" ++ toString n else toString n

/-- `%b` month abbreviation, uppercased by the source's `.upper()`. -/
def monthAbbrev (m : ℕ) : String :=
  if m = 1 then "JAN" else if m = 2 then "FEB" else if m = 3 then "MAR"
  else if m = 4 then "APR" else if m = 5 then "MAY" else if m = 6 then "JUN"
  else if m = 7 then "JUL" else if m = 8 then "AUG" else if m = 9 then "SEP"
  else if m = 10 then "OCT" else if m = 11 then "NOV" else "DEC"

/-- `expiry_date.strftime('%d%b%y').upper()` (e.g. `30MAR23`). -/
def fmtDDMonYY (dt : PDate) : String :=
  pad2 dt.day ++ monthAbbrev dt.month ++ pad2 (dt.year % 100)

/-- `expiry_date.strftime('%b').upper() + expiry_date.strftime('%y')`
(e.g. `MAR23`). -/
def fmtMonYY (dt : PDate) : String := monthAbbrev dt.month ++ pad2 (dt.year % 100)

/-- `expiry_date.strftime('%Y-%m-%d')` for four-digit years. -/
def fmtYMD (dt : PDate) : String :=
  toString dt.year ++ "-" ++ pad2 dt.month ++ "-" ++ pad2 dt.day

/-- The FIRST `get_option_trading_symbol` of the class body (options_analysis.py
lines 75-112, monthly `MonYY` format).  Python evaluates a class body top to
bottom and keeps only the last binding of a name, so this definition is
shadowed by the second one below and is never callable on the class. -/
def get_option_trading_symbol_shadowed (symbol : String) (strike : ℤ)
    (option_type : String) (expiry_date : Option PDate) (today : PDate) : Option String :=
  if symbol = "" ∨ strike = 0 ∨ option_type = "" then none
  else
    let e := expiry_date.getD (get_nearest_expiry today)
    some (symbol ++ fmtMonYY e ++ toString strike ++ option_type)

/-- The SECOND `get_option_trading_symbol` of the class body (options_analysis.py
lines 208-242, `DDMonYY` format).  Being the later binding of the name in the
class body, this is the method every caller gets.  The `if not …` safety
check rejects exactly the falsy values: empty strings and a zero strike. -/
def get_option_trading_symbol (symbol : String) (strike : ℤ)
    (option_type : String) (expiry_date : Option PDate) (today : PDate) : Option String :=
  if symbol = "" ∨ strike = 0 ∨ option_type = "" then none
  else
    let e := expiry_date.getD (get_nearest_expiry today)
    some (symbol ++ fmtDDMonYY e ++ toString strike ++ option_type)

/-- One row of the option chain returned by
`live_data_fetcher.get_live_option_chain`.  `iv`, `open_interest` and
`volume` are optional because the source guards each with a
`'col' in selected_option.columns` check. -/
structure ChainRow where
  strike : ℚ
  type : String
  last_price : ℚ
  iv : Option ℚ
  open_interest : Option ℚ
  volume : Option ℚ
deriving DecidableEq, Repr

/-- The `option_info` group of the result dictionary. -/
structure OptionInfo where
  underlying_strike : Option ℤ
  selected_strike : Option ℤ
  strike_type : Option String
  iv_percentile : Option ℚ
  max_pain_price : Option ℤ
  open_interest_analysis : String
deriving DecidableEq, Repr

/-- The `option_prices` group of the result dictionary. -/
structure OptionPrices where
  current_price : Option ℚ
  target_price : Option ℚ
  stop_loss : Option ℚ
deriving DecidableEq, Repr

/-- Result of `analyze_option`: `_create_empty_option_info` returns a
dictionary with only the two groups (no signal/symbol/expiry keys), the
success path returns all five keys. -/
inductive OptionResult
  | empty_info (info : OptionInfo) (prices : OptionPrices)
  | full (info : OptionInfo) (prices : OptionPrices) (option_signal : String)
      (trading_symbol : Option String) (expiry_date : Option String)
deriving DecidableEq, Repr

/-- The `option_prices` group of either result shape. -/
def OptionResult.prices : OptionResult → OptionPrices
  | .empty_info _ p => p
  | .full _ p _ _ _ => p

/-- The `option_info` group of either result shape. -/
def OptionResult.info : OptionResult → OptionInfo
  | .empty_info i _ => i
  | .full i _ _ _ _ => i

/-- The empty option info of `_create_empty_option_info` (lines 455-475). -/
def empty_option_info : OptionInfo :=
  ⟨none, none, none, none, none, "Option data not available"⟩

/-- The empty option prices of `_create_empty_option_info`. -/
def empty_option_prices : OptionPrices := ⟨none, none, none⟩

/-- Model of `OptionsAnalysis._determine_option_signal` (lines 421-453). -/
def determine_option_signal (stock_signal option_type : String) : String :=
  if stock_signal = "" ∨ option_type = "" then "HOLD"
  else if stock_signal = "BUY" then
    (if option_type = "CE" then "Buy CALL Option" else "Sell PUT Option")
  else if stock_signal = "SELL" then
    (if option_type = "PE" then "Buy PUT Option" else "Sell CALL Option")
  else if option_type = "CE" then "Buy CALL Option"
  else "Buy PUT Option"

/-- The `price_change_ratio` expression (lines 326-327 and 382-383):
`abs(target-current)/current` when both are truthy (non-`None`, non-zero),
else the 0.05 default. -/
def price_change_frac (target_price : Option ℚ) (current_price : ℚ) : ℚ :=
  match target_price with
  | some t => if t ≠ 0 ∧ current_price ≠ 0 then |t - current_price| / current_price else 1/20
  | none => 1/20

/-- The option target/stop formulas applied to a current option price `p`
(lines 329-346 for the live path, 385-398 for the estimated path; the two
code blocks are verbatim duplicates of each other): favourable direction
(call on BUY / put on SELL) gets `p*(1+2*ratio)` target and `p*0.7` stop,
the other direction gets `p*0.5` target and `p*1.3` stop, all rounded to
two decimals. -/
def option_target_stop (option_type signal : String) (p ratio : ℚ) : Option ℚ × Option ℚ :=
  if option_type = "CE" then
    if signal = "BUY" then (some (round2 (p * (1 + ratio * 2))), some (round2 (p * (7/10))))
    else (some (round2 (p * (1/2))), some (round2 (p * (13/10))))
  else
    if signal = "SELL" then (some (round2 (p * (1 + ratio * 2))), some (round2 (p * (7/10))))
    else (some (round2 (p * (1/2))), some (round2 (p * (13/10))))

/-- The liquidity text of lines 360-366. -/
def oi_text (row : ChainRow) : String :=
  let oi := row.open_interest.getD 0
  let volume := row.volume.getD 0
  if oi > 0 ∨ volume > 0 then
    "OI: " ++ toString oi ++ ", Volume: " ++ toString volume ++ ". " ++
      (if oi > 10000 then "High" else if oi > 1000 then "Moderate" else "Low") ++
      " liquidity."
  else "Limited option data available"

/-- Model of `OptionsAnalysis.analyze_option` (options_analysis.py lines
244-419).  The wall clock (`today`) and the option-chain fetch are explicit
arguments; `Except.error` models `get_live_option_chain` raising (the
`except` block of lines 367-398), `Except.ok rows` models a successful fetch
of the given chain rows — note the estimated-price fallback lives ONLY in
the `except` block: an empty chain or a chain without the selected contract
leaves all option prices `None`.  `closes` is the `close` column of
`df_stock`; the `if not current_price` check also rejects a last close of
exactly 0 (Python falsiness). -/
def analyze_option (symbol signal : String) (closes : List ℚ)
    (target_price stop_loss : Option ℚ) (confidence : ℚ) (today : PDate)
    (chain : Except Unit (List ChainRow)) : OptionResult :=
  match closes.getLast? with
  | none => .empty_info empty_option_info empty_option_prices
  | some current_price =>
    if current_price = 0 then .empty_info empty_option_info empty_option_prices
    else
      let expiry_date := get_nearest_expiry today
      match select_option_strike (some current_price) signal with
      | none => .empty_info empty_option_info empty_option_prices
      | some (selected_strike, option_type, underlying_strike) =>
        if selected_strike = 0 ∨ option_type = "" then
          .empty_info empty_option_info empty_option_prices
        else
          let trading_symbol :=
            get_option_trading_symbol symbol selected_strike option_type (some expiry_date) today
          let info0 : OptionInfo :=
            ⟨some underlying_strike, some selected_strike, some option_type, none, none,
             "Option data not available"⟩
          let option_signal := determine_option_signal signal option_type
          let expiry_str := some (fmtYMD expiry_date)
          match chain with
          | .error _ =>
            let estimated_price :=
              (if option_type = "CE" then max 0 (current_price - (selected_strike : ℚ))
               else max 0 ((selected_strike : ℚ) - current_price)) + current_price * (1/20)
            let ratio := price_change_frac target_price current_price
            let ts := option_target_stop option_type signal estimated_price ratio
            .full info0 ⟨some (round2 estimated_price), ts.1, ts.2⟩
              option_signal trading_symbol expiry_str
          | .ok rows =>
            if rows.isEmpty then
              .full info0 empty_option_prices option_signal trading_symbol expiry_str
            else
              match rows.find? (fun r =>
                  r.strike == (selected_strike : ℚ) && r.type == option_type) with
              | none => .full info0 empty_option_prices option_signal trading_symbol expiry_str
              | some row =>
                let option_price := row.last_price
                let ratio := price_change_frac target_price current_price
                let ts := option_target_stop option_type signal option_price ratio
                let info1 : OptionInfo :=
                  ⟨some underlying_strike, some selected_strike, some option_type,
                   row.iv.map (fun v => round2 (v * 100)), some underlying_strike, oi_text row⟩
                .full info1 ⟨some option_price, ts.1, ts.2⟩
                  option_signal trading_symbol expiry_str

end OptionsAnalysis

set_option maxRecDepth 4096

attribute [local semireducible] Rat.mul Rat.inv Rat.add Rat.sub

theorem pyRound_intCast (z : ℤ) : pyRound (z : ℚ) = z := by
  unfold pyRound
  simp only [ratFloor_eq_intFloor, Int.floor_intCast]
  norm_num

theorem pyRound_eq_intCast {q : ℚ} {z : ℤ} (h : q = z) : pyRound q = z := by
  rw [h, pyRound_intCast]

/-- Claim C7: `find_atm_strike` rounds to the price tier's step (5 below
1000, 100 from 1000 to 5000, 500 above 5000, with banker's rounding), i.e.
it agrees everywhere with the ATM computed from the specification's tier
wording (`spec_atm`); at the boundary price 5000 the code's 500-step branch
and the spec's 100-step tier coincide.  In particular 950 rounds with step 5
(and NOT with step 100, which would give 1000), 3000 with step 100, 7000
with step 500. -/
theorem C7_find_atm_strike_tiers (p : ℚ) :
    OptionsAnalysis.find_atm_strike (some p) = some (OptionsAnalysis.spec_atm p) ∧
    OptionsAnalysis.find_atm_strike (some 950) = some 950 ∧
    pyRound ((950 : ℚ) / 100) * 100 = 1000 ∧
    OptionsAnalysis.find_atm_strike (some 3000) = some 3000 ∧
    OptionsAnalysis.find_atm_strike (some 7000) = some 7000 := by
  refine ⟨?_, ?_, ?_, ?_, ?_⟩
  · unfold OptionsAnalysis.find_atm_strike OptionsAnalysis.spec_atm OptionsAnalysis.spec_step
    rcases lt_trichotomy p 5000 with h5 | h5 | h5
    · by_cases h1 : p < 1000
      · simp [h1]
      · simp only [h1, if_false, h5, if_true, le_of_lt h5, ite_true]
        norm_num
    · subst h5
      norm_num
      rw [pyRound_eq_intCast (show (10:ℚ) = ((10:ℤ):ℚ) by norm_num),
        pyRound_eq_intCast (show (50:ℚ) = ((50:ℤ):ℚ) by norm_num)]
      norm_num
    · have h1 : ¬ p < 1000 := by linarith
      have h2 : ¬ p < 5000 := by linarith
      have h3 : ¬ p ≤ 5000 := by linarith
      simp [h1, h2, h3]
  · unfold OptionsAnalysis.find_atm_strike
    norm_num
    rw [pyRound_eq_intCast (show (190:ℚ) = ((190:ℤ):ℚ) by norm_num)]
    norm_num
  · norm_num
    decide
  · unfold OptionsAnalysis.find_atm_strike
    norm_num
    rw [pyRound_eq_intCast (show (30:ℚ) = ((30:ℤ):ℚ) by norm_num)]
    norm_num
  · unfold OptionsAnalysis.find_atm_strike
    norm_num
    rw [pyRound_eq_intCast (show (14:ℚ) = ((14:ℤ):ℚ) by norm_num)]
    norm_num

theorem select_4800_buy :
    OptionsAnalysis.select_option_strike (some 4800) "BUY" = some (4900, "CE", 4800) := by
  unfold OptionsAnalysis.select_option_strike OptionsAnalysis.find_atm_strike
  norm_num
  rw [pyRound_eq_intCast (show (48:ℚ) = ((48:ℤ):ℚ) by norm_num)]
  norm_num

/-- Claim C2 counterexample: at price 500 with signal BUY the ATM strike is
500 (5-point tier) but the selected strike is 550 = ATM + 50, not
ATM + 5 = 505, the "one price-tier step" the claim asserts. -/
theorem C2_counterexample :
    OptionsAnalysis.select_option_strike (some 500) "BUY" = some (550, "CE", 500) ∧
    (550 : ℤ) ≠ 500 + 5 := by
  exact ⟨by decide, by decide⟩

/-- Claim C2 (amended): the selected strike is one OFFSET out of the money
from the ATM strike, where the offset is 50 for prices below 1000 and 100
otherwise (so it equals the price-tier step only in the 1000-5000 band):
ATM + offset for calls, ATM - offset for puts.  The concrete scenario of the
claim still holds: close 4800 with BUY gives ATM 4800, selected 4900, CE. -/
theorem C2_amended_strike_offset (p : ℚ) (signal : String) (st : ℤ) (ot : String)
    (atm : ℤ)
    (h : OptionsAnalysis.select_option_strike (some p) signal = some (st, ot, atm)) :
    OptionsAnalysis.find_atm_strike (some p) = some atm ∧
    (ot = "CE" ∨ ot = "PE") ∧
    (ot = "CE" → st = atm + (if p < 1000 then 50 else 100)) ∧
    (ot = "PE" → st = atm - (if p < 1000 then 50 else 100)) ∧
    OptionsAnalysis.select_option_strike (some 4800) "BUY" = some (4900, "CE", 4800) := by
  rcases hA : OptionsAnalysis.find_atm_strike (some p) with _ | a
  · simp only [OptionsAnalysis.select_option_strike, hA] at h
    exact absurd h (by simp)
  · simp only [OptionsAnalysis.select_option_strike, hA, Option.some.injEq,
      Prod.mk.injEq] at h
    obtain ⟨hst, hot, hatm⟩ := h
    refine ⟨by rw [hatm], ?_, ?_, ?_, select_4800_buy⟩
    · rw [← hot]
      split_ifs <;> simp
    · intro hce
      have hO := hot.trans hce
      rw [← hst, ← hatm, hO]
      simp
    · intro hpe
      have hO := hot.trans hpe
      rw [← hst, ← hatm, hO]
      simp

/-- Claim C2 witness: the amended statement evaluated at price 4800,
signal BUY. -/
theorem C2_amended_strike_offset_witness :
    OptionsAnalysis.select_option_strike (some 4800) "BUY" = some (4900, "CE", 4800) ∧
    (OptionsAnalysis.find_atm_strike (some 4800) = some 4800 ∧
      ("CE" = "CE" ∨ "CE" = "PE") ∧
      ("CE" = "CE" → (4900 : ℤ) = 4800 + (if (4800 : ℚ) < 1000 then 50 else 100)) ∧
      ("CE" = "PE" → (4900 : ℤ) = 4800 - (if (4800 : ℚ) < 1000 then 50 else 100)) ∧
      OptionsAnalysis.select_option_strike (some 4800) "BUY" = some (4900, "CE", 4800)) :=
  ⟨select_4800_buy,
   C2_amended_strike_offset 4800 "BUY" 4900 "CE" 4800 select_4800_buy⟩

theorem frame_votes_length (f : TechnicalAnalysis.SignalFrame)
    (vs : List TechnicalAnalysis.Vote) (h : TechnicalAnalysis.frame_votes f = some vs) :
    vs.length = if f.hasVolume then 10 else 9 := by
  unfold TechnicalAnalysis.frame_votes at h
  rcases hl : f.rows.getLast? with _ | latest
  · rw [hl] at h
    contradiction
  · rw [hl] at h
    simp only at h
    by_cases hv : f.hasVolume
    · rw [if_pos hv] at h
      rcases hvv : TechnicalAnalysis.volume_vote latest (TechnicalAnalysis.frame_prev_close f) with
        _ | v
      · rw [hvv] at h
        contradiction
      · rw [hvv] at h
        simp only [Option.some.injEq] at h
        rw [hv, if_pos rfl, ← h]
        rfl
    · rw [if_neg hv] at h
      simp only [Option.some.injEq] at h
      simp only [hv, if_false, ← h]
      rfl

theorem generate_signals_empty (f : TechnicalAnalysis.SignalFrame) (h : f.rows = []) :
    TechnicalAnalysis.generate_signals f = some ("HOLD", 0) := by
  unfold TechnicalAnalysis.generate_signals
  simp [h]

/-- Claim C1: on a non-empty indicator frame, whenever `generate_signals`
returns (it raises `IndexError` only on the one-row-with-spiking-volume
corner, modelled as `none`), the outcome is governed exactly by the votes:
BUY iff `buy > sell ∧ buy > 0.3 * total`, symmetrically SELL, otherwise
HOLD; confidence is `winning_votes / total * 100` for BUY/SELL and exactly
50 for HOLD; the total is 10 with volume data and 9 without; and an empty
frame yields `("HOLD", 0)`. -/
theorem C1_signal_voter_aggregation (f : TechnicalAnalysis.SignalFrame) :
    (f.rows = [] → TechnicalAnalysis.generate_signals f = some ("HOLD", 0)) ∧
    (∀ sig conf, f.rows ≠ [] →
      TechnicalAnalysis.generate_signals f = some (sig, conf) →
      ∃ vs, TechnicalAnalysis.frame_votes f = some vs ∧
        vs.length = (if f.hasVolume then 10 else 9) ∧
        ((sig = "BUY") ↔ (TechnicalAnalysis.buy_count vs > TechnicalAnalysis.sell_count vs ∧
          (TechnicalAnalysis.buy_count vs : ℚ) > (vs.length : ℚ) * (3/10))) ∧
        ((sig = "SELL") ↔ (TechnicalAnalysis.sell_count vs > TechnicalAnalysis.buy_count vs ∧
          (TechnicalAnalysis.sell_count vs : ℚ) > (vs.length : ℚ) * (3/10))) ∧
        (sig = "BUY" → conf = (TechnicalAnalysis.buy_count vs : ℚ) / (vs.length : ℚ) * 100) ∧
        (sig = "SELL" → conf = (TechnicalAnalysis.sell_count vs : ℚ) / (vs.length : ℚ) * 100) ∧
        (sig = "HOLD" → conf = 50)) := by
  refine ⟨generate_signals_empty f, ?_⟩
  intro sig conf hne hg
  have hemp : f.rows.isEmpty = false := by
    simpa [List.isEmpty_iff] using hne
  unfold TechnicalAnalysis.generate_signals at hg
  rw [hemp] at hg
  simp only [Bool.false_eq_true, if_false] at hg
  rcases hv : TechnicalAnalysis.frame_votes f with _ | vs
  · rw [hv] at hg
    contradiction
  · rw [hv] at hg
    simp only at hg
    refine ⟨vs, rfl, frame_votes_length f vs hv, ?_⟩
    split_ifs at hg with h1 h2
    · simp only [Option.some.injEq, Prod.mk.injEq] at hg
      obtain ⟨hsig, hconf⟩ := hg
      subst hsig
      refine ⟨Iff.intro (fun _ => h1) (fun _ => rfl),
        Iff.intro (fun hc => absurd hc (by decide)) (fun hc => absurd hc.1 (Nat.lt_asymm h1.1)),
        fun _ => hconf.symm,
        fun hc => absurd hc (by decide),
        fun hc => absurd hc (by decide)⟩
    · simp only [Option.some.injEq, Prod.mk.injEq] at hg
      obtain ⟨hsig, hconf⟩ := hg
      subst hsig
      refine ⟨Iff.intro (fun hc => absurd hc (by decide)) (fun hc => absurd hc.1 (Nat.lt_asymm h2.1)),
        Iff.intro (fun _ => h2) (fun _ => rfl),
        fun hc => absurd hc (by decide),
        fun _ => hconf.symm,
        fun hc => absurd hc (by decide)⟩
    · simp only [Option.some.injEq, Prod.mk.injEq] at hg
      obtain ⟨hsig, hconf⟩ := hg
      subst hsig
      refine ⟨Iff.intro (fun hc => absurd hc (by decide)) (fun hc => absurd hc h1),
        Iff.intro (fun hc => absurd hc (by decide)) (fun hc => absurd hc h2),
        fun hc => absurd hc (by decide),
        fun hc => absurd hc (by decide),
        fun _ => hconf.symm⟩

/-- Claim C1 witness: the empty frame yields `("HOLD", 0)`, and a concrete
one-row frame without volume casts 7 BUY votes out of 9 and the theorem's
characterization holds there. -/
theorem C1_signal_voter_aggregation_witness :
    TechnicalAnalysis.generate_signals ⟨[], true⟩ = some ("HOLD", 0) ∧
    (∃ vs, TechnicalAnalysis.frame_votes
        ⟨[⟨25, 2, 1, 30, 20, 10, 110, 100, 90, 90, 130, 10, 10, 100, 5, 0, 0, 80⟩], false⟩ =
          some vs ∧
      vs.length = (if (false : Bool) then 10 else 9) ∧
      (("BUY" = "BUY") ↔ (TechnicalAnalysis.buy_count vs > TechnicalAnalysis.sell_count vs ∧
        (TechnicalAnalysis.buy_count vs : ℚ) > (vs.length : ℚ) * (3/10))) ∧
      (("BUY" = "SELL") ↔ (TechnicalAnalysis.sell_count vs > TechnicalAnalysis.buy_count vs ∧
        (TechnicalAnalysis.sell_count vs : ℚ) > (vs.length : ℚ) * (3/10))) ∧
      ("BUY" = "BUY" → (700/9 : ℚ) = (TechnicalAnalysis.buy_count vs : ℚ) / (vs.length : ℚ) * 100) ∧
      ("BUY" = "SELL" → (700/9 : ℚ) = (TechnicalAnalysis.sell_count vs : ℚ) / (vs.length : ℚ) * 100) ∧
      ("BUY" = "HOLD" → (700/9 : ℚ) = 50)) :=
  ⟨(C1_signal_voter_aggregation ⟨[], true⟩).1 rfl,
   (C1_signal_voter_aggregation
       ⟨[⟨25, 2, 1, 30, 20, 10, 110, 100, 90, 90, 130, 10, 10, 100, 5, 0, 0, 80⟩], false⟩).2
     "BUY" (700/9) (List.cons_ne_nil _ _) (by decide)⟩

/-- Claim C5: the confidence returned by the Signal Voter is always in
[0, 100]; it is exactly 50 whenever the outcome is HOLD on a non-empty
frame; and it is 0 only on the empty frame. -/
theorem C5_confidence_bounds (f : TechnicalAnalysis.SignalFrame) (sig : String) (conf : ℚ)
    (h : TechnicalAnalysis.generate_signals f = some (sig, conf)) :
    0 ≤ conf ∧ conf ≤ 100 ∧
    (f.rows ≠ [] → sig = "HOLD" → conf = 50) ∧
    (conf = 0 → f.rows = []) := by
  unfold TechnicalAnalysis.generate_signals at h
  by_cases hemp : f.rows.isEmpty
  · rw [if_pos hemp] at h
    simp only [Option.some.injEq, Prod.mk.injEq] at h
    obtain ⟨hsig, hconf⟩ := h
    refine ⟨by rw [← hconf], by rw [← hconf]; norm_num, ?_, ?_⟩
    · intro hne
      exact absurd (List.isEmpty_iff.mp hemp) hne
    · intro _
      exact List.isEmpty_iff.mp hemp
  · rw [if_neg hemp] at h
    rcases hv : TechnicalAnalysis.frame_votes f with _ | vs
    · rw [hv] at h
      contradiction
    · rw [hv] at h
      simp only at h
      have hlen := frame_votes_length f vs hv
      have ht9 : (9 : ℚ) ≤ (vs.length : ℚ) := by
        split_ifs at hlen <;> rw [hlen] <;> norm_num
      have htpos : (0 : ℚ) < (vs.length : ℚ) := by linarith
      have hb : TechnicalAnalysis.buy_count vs ≤ vs.length := List.countP_le_length _
      have hs : TechnicalAnalysis.sell_count vs ≤ vs.length := List.countP_le_length _
      have hbq : (TechnicalAnalysis.buy_count vs : ℚ) ≤ (vs.length : ℚ) := by
        exact_mod_cast hb
      have hsq : (TechnicalAnalysis.sell_count vs : ℚ) ≤ (vs.length : ℚ) := by
        exact_mod_cast hs
      have hrows : f.rows ≠ [] := by
        simpa [List.isEmpty_iff] using hemp
      split_ifs at h with h1 h2
      · simp only [Option.some.injEq, Prod.mk.injEq] at h
        obtain ⟨hsig, hconf⟩ := h
        have hb0 : (0 : ℚ) < (TechnicalAnalysis.buy_count vs : ℚ) := by
          have := h1.2
          nlinarith
        refine ⟨?_, ?_, ?_, ?_⟩
        · rw [← hconf]
          positivity
        · rw [← hconf]
          rw [div_mul_eq_mul_div, div_le_iff htpos]
          nlinarith
        · intro _ hh
          rw [← hsig] at hh
          exact absurd hh (by decide)
        · intro hc
          rw [← hconf] at hc
          exfalso
          have : (TechnicalAnalysis.buy_count vs : ℚ) / (vs.length : ℚ) * 100 > 0 := by
            positivity
          linarith
      · simp only [Option.some.injEq, Prod.mk.injEq] at h
        obtain ⟨hsig, hconf⟩ := h
        have hs0 : (0 : ℚ) < (TechnicalAnalysis.sell_count vs : ℚ) := by
          have := h2.2
          nlinarith
        refine ⟨?_, ?_, ?_, ?_⟩
        · rw [← hconf]
          positivity
        · rw [← hconf]
          rw [div_mul_eq_mul_div, div_le_iff htpos]
          nlinarith
        · intro _ hh
          rw [← hsig] at hh
          exact absurd hh (by decide)
        · intro hc
          rw [← hconf] at hc
          exfalso
          have : (TechnicalAnalysis.sell_count vs : ℚ) / (vs.length : ℚ) * 100 > 0 := by
            positivity
          linarith
      · simp only [Option.some.injEq, Prod.mk.injEq] at h
        obtain ⟨hsig, hconf⟩ := h
        refine ⟨by rw [← hconf]; norm_num, by rw [← hconf]; norm_num, fun _ _ => hconf.symm, ?_⟩
        · intro hc
          rw [← hconf] at hc
          norm_num at hc

/-- Claim C5 witness: the theorem evaluated at the concrete one-row BUY frame
of the C1 witness. -/
theorem C5_confidence_bounds_witness :
    0 ≤ (700/9 : ℚ) ∧ (700/9 : ℚ) ≤ 100 ∧
    (([⟨25, 2, 1, 30, 20, 10, 110, 100, 90, 90, 130, 10, 10, 100, 5, 0, 0,
        80⟩] : List TechnicalAnalysis.IndRow) ≠ [] → "BUY" = "HOLD" → (700/9 : ℚ) = 50) ∧
    ((700/9 : ℚ) = 0 →
      ([⟨25, 2, 1, 30, 20, 10, 110, 100, 90, 90, 130, 10, 10, 100, 5, 0, 0,
        80⟩] : List TechnicalAnalysis.IndRow) = []) :=
  C5_confidence_bounds
    ⟨[⟨25, 2, 1, 30, 20, 10, 110, 100, 90, 90, 130, 10, 10, 100, 5, 0, 0, 80⟩], false⟩
    "BUY" (700/9) (by decide)

/-- Claim C9 counterexample: a one-row frame whose `date` column holds an
unparsed value is NOT left unchanged by `calculate_indicators`: line 35
assigns `pd.to_datetime(df['date'])` into the caller's frame before the
copy of line 38 is taken. -/
theorem C9_counterexample :
    TechnicalAnalysis.calculate_indicators_caller_frame
        ⟨some [.raw 0], [1], [1], [1], [1], none⟩ ≠
      ⟨some [.raw 0], [1], [1], [1], [1], none⟩ := by
  decide

/-- Claim C9 (amended): `calculate_indicators` leaves every OHLCV column of
the caller's frame unchanged, and leaves the whole frame unchanged whenever
there is no `date` column or the `date` column is already in datetime form;
but a present, not-yet-parsed `date` column is converted in place (the sole
caller-visible mutation). -/
theorem C9_amended_caller_frame (df : TechnicalAnalysis.DataFrame) :
    (TechnicalAnalysis.calculate_indicators_caller_frame df).opens = df.opens ∧
    (TechnicalAnalysis.calculate_indicators_caller_frame df).highs = df.highs ∧
    (TechnicalAnalysis.calculate_indicators_caller_frame df).lows = df.lows ∧
    (TechnicalAnalysis.calculate_indicators_caller_frame df).closes = df.closes ∧
    (TechnicalAnalysis.calculate_indicators_caller_frame df).volumes = df.volumes ∧
    (df.dates = none → TechnicalAnalysis.calculate_indicators_caller_frame df = df) ∧
    (∀ ds, df.dates = some ds → (∀ c ∈ ds, TechnicalAnalysis.pd_to_datetime c = c) →
      TechnicalAnalysis.calculate_indicators_caller_frame df = df) := by
  obtain ⟨dts, op, hi, lo, cl, vo⟩ := df
  unfold TechnicalAnalysis.calculate_indicators_caller_frame
  by_cases h : TechnicalAnalysis.DataFrame.rowCount ⟨dts, op, hi, lo, cl, vo⟩ = 0
  · simp [h]
  · refine ⟨by simp [h], by simp [h], by simp [h], by simp [h], by simp [h], ?_, ?_⟩
    · intro hd
      simp only at hd
      simp [h, hd]
    · intro ds hd hall
      simp only at hd
      have hm : List.map TechnicalAnalysis.pd_to_datetime ds = ds :=
        (List.map_congr_left hall).trans (List.map_id ds)
      simp [h, hd, hm]

/-- Claim C9 witness: the amended statement evaluated on a frame whose date
column is already parsed (the frame is returned unchanged). -/
theorem C9_amended_caller_frame_witness :
    TechnicalAnalysis.calculate_indicators_caller_frame
        ⟨some [.parsed 5], [2], [2], [2], [2], none⟩ =
      ⟨some [.parsed 5], [2], [2], [2], [2], none⟩ :=
  (C9_amended_caller_frame ⟨some [.parsed 5], [2], [2], [2], [2], none⟩).2.2.2.2.2.2
    [.parsed 5] rfl (by decide)

/-- Claim C6: `days_to_target` is at least 1 on every call (both return
shapes); on a non-empty frame with positive daily volatility (the latest ATR,
or high-low fallback) it equals `max(round(|target-close| / ATR), 1)`,
further raised to at least `round(100/confidence)` whenever
`confidence > 0`. -/
theorem C6_days_to_target (f : SupportResistanceCalculator.SRFrame) (signal : String)
    (confidence : ℚ) :
    1 ≤ (SupportResistanceCalculator.find_target_and_stop_loss f signal confidence).days ∧
    (∀ last, f.rows.getLast? = some last →
      0 < SupportResistanceCalculator.latest_atr_of f →
      (SupportResistanceCalculator.find_target_and_stop_loss f signal confidence).days =
        (if 0 < confidence then
          max (max (pyRound (|(SupportResistanceCalculator.target_stop f signal).1 - last.close| /
            SupportResistanceCalculator.latest_atr_of f)) 1) (pyRound (100 / confidence))
         else
          max (pyRound (|(SupportResistanceCalculator.target_stop f signal).1 - last.close| /
            SupportResistanceCalculator.latest_atr_of f)) 1)) := by
  constructor
  · unfold SupportResistanceCalculator.find_target_and_stop_loss
    rcases hl : f.rows.getLast? with _ | last
    · simp [SupportResistanceCalculator.TSLResult.days]
    · simp only [SupportResistanceCalculator.TSLResult.days]
      split_ifs <;> omega
  · intro last hl hvol
    unfold SupportResistanceCalculator.find_target_and_stop_loss
    rw [hl]
    simp only [SupportResistanceCalculator.TSLResult.days]
    rw [if_pos hvol]

/-- Claim C6 witness: the theorem applied to a concrete one-row frame
(close 100, ATR 2) with signal HOLD and confidence 50. -/
theorem C6_days_to_target_witness :
    (SupportResistanceCalculator.SRFrame.mk [⟨95, 105, 100, 2⟩] true).rows.getLast? =
      some ⟨95, 105, 100, 2⟩ ∧
    0 < SupportResistanceCalculator.latest_atr_of ⟨[⟨95, 105, 100, 2⟩], true⟩ ∧
    (SupportResistanceCalculator.find_target_and_stop_loss ⟨[⟨95, 105, 100, 2⟩], true⟩
        "HOLD" 50).days =
      (if 0 < (50 : ℚ) then
        max (max (pyRound
          (|(SupportResistanceCalculator.target_stop ⟨[⟨95, 105, 100, 2⟩], true⟩ "HOLD").1 -
            (SupportResistanceCalculator.SRRow.mk 95 105 100 2).close| /
            SupportResistanceCalculator.latest_atr_of ⟨[⟨95, 105, 100, 2⟩], true⟩)) 1)
          (pyRound (100 / (50 : ℚ)))
       else
        max (pyRound
          (|(SupportResistanceCalculator.target_stop ⟨[⟨95, 105, 100, 2⟩], true⟩ "HOLD").1 -
            (SupportResistanceCalculator.SRRow.mk 95 105 100 2).close| /
            SupportResistanceCalculator.latest_atr_of ⟨[⟨95, 105, 100, 2⟩], true⟩)) 1) :=
  ⟨rfl, by decide,
   (C6_days_to_target ⟨[⟨95, 105, 100, 2⟩], true⟩ "HOLD" 50).2 ⟨95, 105, 100, 2⟩ rfl
     (by decide)⟩

/-- Claim C3 counterexample: on a one-row frame with close 0.999, ATR 0.0005
and low 0.9985, the support candidates cluster to 0.998375, which passes the
strict `level < latest close` filter of line 143 but rounds (line 151) to
1.00, which is NOT strictly less than the latest close 0.999: the returned
support list is exactly [1]. -/
theorem C3_counterexample :
    (SupportResistanceCalculator.calculate_support_resistance
      ⟨[⟨1997/2000, 11/10, 999/1000, 1/2000⟩], true⟩ 10 3 1).1 = [1] ∧
    ((⟨[⟨1997/2000, 11/10, 999/1000, 1/2000⟩], true⟩ :
        SupportResistanceCalculator.SRFrame).rows.getLast?.map (·.close)) =
      some (999/1000) ∧
    ¬ ((1 : ℚ) < 999/1000) := by
  have hpre : (SupportResistanceCalculator.calculate_support_resistance_preround
      ⟨[⟨1997/2000, 11/10, 999/1000, 1/2000⟩], true⟩ 10 3 1).1 = [7987/8000] := by
    decide
  have hr : round2 (7987/8000) = 1 := by
    unfold round2 pyRound
    simp only [ratFloor_eq_intFloor]
    norm_num
  refine ⟨?_, rfl, by norm_num⟩
  show (SupportResistanceCalculator.calculate_support_resistance_preround
    ⟨[⟨1997/2000, 11/10, 999/1000, 1/2000⟩], true⟩ 10 3 1).1.map round2 = [1]
  rw [hpre]
  simp [hr]

/-- Claim C3 (amended): on a non-empty frame, support levels are strictly
below and resistance levels strictly above the latest close BEFORE the final
rounding to two decimals (the strict filter of lines 143-144 runs before the
rounding of lines 150-152), so the returned (rounded) levels are only
guaranteed within 0.005 of the strict bound; both returned lists have at most
`max_levels` entries, the support list is sorted descending and the
resistance list ascending (non-strictly), and the returned lists are exactly
the pre-rounding lists rounded entrywise. -/
theorem C3_amended_support_resistance (f : SupportResistanceCalculator.SRFrame)
    (window max_levels : ℕ) (thr : ℚ) (last : SupportResistanceCalculator.SRRow)
    (hl : f.rows.getLast? = some last) :
    (∀ l ∈ (SupportResistanceCalculator.calculate_support_resistance_preround
        f window max_levels thr).1, l < last.close) ∧
    (∀ l ∈ (SupportResistanceCalculator.calculate_support_resistance_preround
        f window max_levels thr).2, last.close < l) ∧
    (SupportResistanceCalculator.calculate_support_resistance f window max_levels thr).1 =
      (SupportResistanceCalculator.calculate_support_resistance_preround
        f window max_levels thr).1.map round2 ∧
    (SupportResistanceCalculator.calculate_support_resistance f window max_levels thr).2 =
      (SupportResistanceCalculator.calculate_support_resistance_preround
        f window max_levels thr).2.map round2 ∧
    (SupportResistanceCalculator.calculate_support_resistance f window max_levels
      thr).1.length ≤ max_levels ∧
    (SupportResistanceCalculator.calculate_support_resistance f window max_levels
      thr).2.length ≤ max_levels ∧
    (∀ l ∈ (SupportResistanceCalculator.calculate_support_resistance f window max_levels
      thr).1, l < last.close + 1/200) ∧
    (∀ l ∈ (SupportResistanceCalculator.calculate_support_resistance f window max_levels
      thr).2, last.close - 1/200 < l) ∧
    List.Pairwise (· ≥ ·)
      (SupportResistanceCalculator.calculate_support_resistance f window max_levels thr).1 ∧
    List.Pairwise (· ≤ ·)
      (SupportResistanceCalculator.calculate_support_resistance f window max_levels thr).2 := by
  have hsup : ∀ l ∈ (SupportResistanceCalculator.calculate_support_resistance_preround
      f window max_levels thr).1, l < last.close := by
    intro l h
    unfold SupportResistanceCalculator.calculate_support_resistance_preround at h
    rw [hl] at h
    simp only at h
    have h1 := List.mem_of_mem_take h
    rw [List.mem_insertionSort] at h1
    exact of_decide_eq_true (List.mem_filter.mp h1).2
  have hres : ∀ l ∈ (SupportResistanceCalculator.calculate_support_resistance_preround
      f window max_levels thr).2, last.close < l := by
    intro l h
    unfold SupportResistanceCalculator.calculate_support_resistance_preround at h
    rw [hl] at h
    simp only at h
    have h1 := List.mem_of_mem_take h
    rw [List.mem_insertionSort] at h1
    exact of_decide_eq_true (List.mem_filter.mp h1).2
  have hlen1 : (SupportResistanceCalculator.calculate_support_resistance_preround
      f window max_levels thr).1.length ≤ max_levels := by
    unfold SupportResistanceCalculator.calculate_support_resistance_preround
    rw [hl]
    simp only
    exact List.length_take_le _ _
  have hlen2 : (SupportResistanceCalculator.calculate_support_resistance_preround
      f window max_levels thr).2.length ≤ max_levels := by
    unfold SupportResistanceCalculator.calculate_support_resistance_preround
    rw [hl]
    simp only
    exact List.length_take_le _ _
  have hsort1 : List.Pairwise (· ≥ ·)
      (SupportResistanceCalculator.calculate_support_resistance_preround
        f window max_levels thr).1 := by
    unfold SupportResistanceCalculator.calculate_support_resistance_preround
    rw [hl]
    simp only
    exact List.Pairwise.sublist (List.take_sublist _ _) (List.sorted_insertionSort _ _)
  have hsort2 : List.Pairwise (· ≤ ·)
      (SupportResistanceCalculator.calculate_support_resistance_preround
        f window max_levels thr).2 := by
    unfold SupportResistanceCalculator.calculate_support_resistance_preround
    rw [hl]
    simp only
    exact List.Pairwise.sublist (List.take_sublist _ _) (List.sorted_insertionSort _ _)
  refine ⟨hsup, hres, rfl, rfl, ?_, ?_, ?_, ?_, ?_, ?_⟩
  · rw [show (SupportResistanceCalculator.calculate_support_resistance f window max_levels
        thr).1 = (SupportResistanceCalculator.calculate_support_resistance_preround
        f window max_levels thr).1.map round2 from rfl, List.length_map]
    exact hlen1
  · rw [show (SupportResistanceCalculator.calculate_support_resistance f window max_levels
        thr).2 = (SupportResistanceCalculator.calculate_support_resistance_preround
        f window max_levels thr).2.map round2 from rfl, List.length_map]
    exact hlen2
  · intro l h
    rw [show (SupportResistanceCalculator.calculate_support_resistance f window max_levels
        thr).1 = (SupportResistanceCalculator.calculate_support_resistance_preround
        f window max_levels thr).1.map round2 from rfl, List.mem_map] at h
    obtain ⟨x, hx, rfl⟩ := h
    exact round2_lt_of_lt (hsup x hx)
  · intro l h
    rw [show (SupportResistanceCalculator.calculate_support_resistance f window max_levels
        thr).2 = (SupportResistanceCalculator.calculate_support_resistance_preround
        f window max_levels thr).2.map round2 from rfl, List.mem_map] at h
    obtain ⟨x, hx, rfl⟩ := h
    exact lt_round2_of_lt (hres x hx)
  · exact hsort1.map _ (fun a b hab => round2_mono hab)
  · exact hsort2.map _ (fun a b hab => round2_mono hab)

/-- Claim C3 witness: the amended statement evaluated on the counterexample
frame (single support level 1, which is within 0.005 above the close 0.999,
and list lengths at most 3). -/
theorem C3_amended_support_resistance_witness :
    (⟨[⟨1997/2000, 11/10, 999/1000, 1/2000⟩], true⟩ :
        SupportResistanceCalculator.SRFrame).rows.getLast? =
      some ⟨1997/2000, 11/10, 999/1000, 1/2000⟩ ∧
    (∀ l ∈ (SupportResistanceCalculator.calculate_support_resistance
        ⟨[⟨1997/2000, 11/10, 999/1000, 1/2000⟩], true⟩ 10 3 1).1,
      l < (SupportResistanceCalculator.SRRow.mk (1997/2000) (11/10) (999/1000)
        (1/2000)).close + 1/200) ∧
    (SupportResistanceCalculator.calculate_support_resistance
      ⟨[⟨1997/2000, 11/10, 999/1000, 1/2000⟩], true⟩ 10 3 1).1.length ≤ 3 :=
  ⟨rfl,
   (C3_amended_support_resistance ⟨[⟨1997/2000, 11/10, 999/1000, 1/2000⟩], true⟩
     10 3 1 ⟨1997/2000, 11/10, 999/1000, 1/2000⟩ rfl).2.2.2.2.2.2.1,
   (C3_amended_support_resistance ⟨[⟨1997/2000, 11/10, 999/1000, 1/2000⟩], true⟩
     10 3 1 ⟨1997/2000, 11/10, 999/1000, 1/2000⟩ rfl).2.2.2.2.1⟩

/-- Claim C4 counterexample: the option chain is fetched successfully but
EMPTY (no live quote for the selected contract exists), yet `analyze_option`
does NOT fall back to the intrinsic-value + 5% premium estimate the claim
describes: the current option price stays `None`.  (At close 4800 / BUY /
strike 4900 the claimed estimate would be 0 + 4800*5% = 240.)  The estimate
lives only in the `except` block of lines 367-398, reached when the fetch
raises. -/
theorem C4_counterexample :
    (OptionsAnalysis.analyze_option "INFY" "BUY" [4800] (some 4900) (some 4750) 60
      ⟨2023, 3, 15⟩ (.ok [])).prices.current_price = none ∧
    (none : Option ℚ) ≠ some 240 := by
  constructor
  · have hsel := select_4800_buy
    unfold OptionsAnalysis.analyze_option
    simp only [List.getLast?_singleton]
    norm_num
    rw [hsel]
    simp [OptionsAnalysis.empty_option_prices, OptionsAnalysis.OptionResult.prices]
  · simp

/-- Claim C4 (amended): `analyze_option` applies the intrinsic-value +
5%-of-close premium estimate, with the same target/stop formulas as the
live-quote path, ONLY when the option-chain fetch raises; when the chain is
fetched but is empty, or does not contain the selected strike/type, all
option prices remain `None`. -/
theorem C4_amended_estimate_on_raise (symbol signal : String) (closes : List ℚ)
    (tp sl : Option ℚ) (conf : ℚ) (today : OptionsAnalysis.PDate)
    (c : ℚ) (hc : closes.getLast? = some c) (hc0 : ¬ c = 0)
    (st : ℤ) (ot : String) (us : ℤ)
    (hsel : OptionsAnalysis.select_option_strike (some c) signal = some (st, ot, us))
    (hst0 : ¬ st = 0) (hot : ¬ ot = "") :
    (OptionsAnalysis.analyze_option symbol signal closes tp sl conf today
        (.error ())).prices =
      ⟨some (round2 ((if ot = "CE" then max 0 (c - (st : ℚ)) else max 0 ((st : ℚ) - c)) +
          c * (1/20))),
        (OptionsAnalysis.option_target_stop ot signal
          ((if ot = "CE" then max 0 (c - (st : ℚ)) else max 0 ((st : ℚ) - c)) + c * (1/20))
          (OptionsAnalysis.price_change_frac tp c)).1,
        (OptionsAnalysis.option_target_stop ot signal
          ((if ot = "CE" then max 0 (c - (st : ℚ)) else max 0 ((st : ℚ) - c)) + c * (1/20))
          (OptionsAnalysis.price_change_frac tp c)).2⟩ ∧
    (OptionsAnalysis.analyze_option symbol signal closes tp sl conf today
        (.ok [])).prices = OptionsAnalysis.empty_option_prices ∧
    (∀ rows : List OptionsAnalysis.ChainRow,
      (∀ r ∈ rows, ¬ (r.strike = (st : ℚ) ∧ r.type = ot)) →
      (OptionsAnalysis.analyze_option symbol signal closes tp sl conf today
        (.ok rows)).prices = OptionsAnalysis.empty_option_prices) := by
  unfold OptionsAnalysis.analyze_option
  rw [hc]
  simp only [hc0, if_false]
  rw [hsel]
  simp only
  have hguard : ¬ (st = 0 ∨ ot = "") := by
    intro h
    rcases h with h | h
    · exact hst0 h
    · exact hot h
  simp only [if_neg hguard]
  refine ⟨rfl, rfl, ?_⟩
  intro rows hrows
  have hfind : rows.find? (fun r => r.strike == (st : ℚ) && r.type == ot) = none := by
    rw [List.find?_eq_none]
    intro r hr
    simp only [Bool.and_eq_true, beq_iff_eq]
    intro hand
    exact hrows r hr ⟨hand.1, hand.2⟩
  by_cases he : rows.isEmpty
  · simp only [he, if_true]
    rfl
  · simp only [he, Bool.false_eq_true, if_false, hfind]
    rfl

/-- Claim C4 witness: the amended statement at close 4800, BUY, strike 4900
CE, target 4900: on the raising path the estimate is applied, on the
fetched-but-empty and no-matching-contract paths the prices remain None. -/
theorem C4_amended_estimate_on_raise_witness :
    (OptionsAnalysis.analyze_option "INFY" "BUY" [4800] (some 4900) (some 4750) 60
        ⟨2023, 3, 15⟩ (.error ())).prices =
      ⟨some (round2 ((if "CE" = "CE" then max 0 ((4800 : ℚ) - ((4900 : ℤ) : ℚ))
            else max 0 (((4900 : ℤ) : ℚ) - 4800)) + 4800 * (1/20))),
        (OptionsAnalysis.option_target_stop "CE" "BUY"
          ((if "CE" = "CE" then max 0 ((4800 : ℚ) - ((4900 : ℤ) : ℚ))
            else max 0 (((4900 : ℤ) : ℚ) - 4800)) + 4800 * (1/20))
          (OptionsAnalysis.price_change_frac (some 4900) 4800)).1,
        (OptionsAnalysis.option_target_stop "CE" "BUY"
          ((if "CE" = "CE" then max 0 ((4800 : ℚ) - ((4900 : ℤ) : ℚ))
            else max 0 (((4900 : ℤ) : ℚ) - 4800)) + 4800 * (1/20))
          (OptionsAnalysis.price_change_frac (some 4900) 4800)).2⟩ ∧
    (OptionsAnalysis.analyze_option "INFY" "BUY" [4800] (some 4900) (some 4750) 60
        ⟨2023, 3, 15⟩ (.ok [])).prices = OptionsAnalysis.empty_option_prices ∧
    (∀ rows : List OptionsAnalysis.ChainRow,
      (∀ r ∈ rows, ¬ (r.strike = ((4900 : ℤ) : ℚ) ∧ r.type = "CE")) →
      (OptionsAnalysis.analyze_option "INFY" "BUY" [4800] (some 4900) (some 4750) 60
        ⟨2023, 3, 15⟩ (.ok rows)).prices = OptionsAnalysis.empty_option_prices) :=
  C4_amended_estimate_on_raise "INFY" "BUY" [4800] (some 4900) (some 4750) 60
    ⟨2023, 3, 15⟩ 4800 rfl (by norm_num) 4900 "CE" 4800 select_4800_buy
    (by norm_num) (by decide)

theorem dayNumber_day (y m d : ℕ) (hd : 1 ≤ d) :
    OptionsAnalysis.dayNumber ⟨y, m, d⟩ = OptionsAnalysis.dayNumber ⟨y, m, 1⟩ + (d - 1) := by
  unfold OptionsAnalysis.dayNumber
  simp only
  omega

theorem daysInMonth_ge (y m : ℕ) : 28 ≤ OptionsAnalysis.daysInMonth y m := by
  unfold OptionsAnalysis.daysInMonth
  split_ifs <;> omega

theorem pyWeekday_day (y m d : ℕ) (hd : 1 ≤ d) :
    OptionsAnalysis.pyWeekday ⟨y, m, d⟩ = (OptionsAnalysis.dayNumber ⟨y, m, 1⟩ + d) % 7 := by
  unfold OptionsAnalysis.pyWeekday
  rw [dayNumber_day y m d hd]
  omega

theorem lastThursday_eq (y m : ℕ) :
    OptionsAnalysis.lastThursday y m = ⟨y, m, OptionsAnalysis.daysInMonth y m -
      ((OptionsAnalysis.dayNumber ⟨y, m, 1⟩ + OptionsAnalysis.daysInMonth y m) % 7 + 4) % 7⟩ := by
  unfold OptionsAnalysis.lastThursday
  dsimp only
  rw [pyWeekday_day y m _ (by have := daysInMonth_ge y m; omega)]

theorem lastThursday_spec (y m : ℕ) :
    (OptionsAnalysis.lastThursday y m).year = y ∧
    (OptionsAnalysis.lastThursday y m).month = m ∧
    1 ≤ (OptionsAnalysis.lastThursday y m).day ∧
    (OptionsAnalysis.lastThursday y m).day ≤ OptionsAnalysis.daysInMonth y m ∧
    OptionsAnalysis.pyWeekday (OptionsAnalysis.lastThursday y m) = 3 ∧
    ∀ d, 1 ≤ d → d ≤ OptionsAnalysis.daysInMonth y m →
      OptionsAnalysis.pyWeekday ⟨y, m, d⟩ = 3 → d ≤ (OptionsAnalysis.lastThursday y m).day := by
  have h28 := daysInMonth_ge y m
  rw [lastThursday_eq y m]
  refine ⟨rfl, rfl, by dsimp only; omega, by dsimp only; omega, ?_, ?_⟩
  · rw [pyWeekday_day y m _ (by omega)]
    omega
  · intro d hd1 hdle hw
    rw [pyWeekday_day y m d hd1] at hw
    dsimp only
    omega

theorem PDate_lt_iff (a b : OptionsAnalysis.PDate) :
    OptionsAnalysis.PDate.lt a b = true ↔
      (a.year < b.year ∨ (a.year = b.year ∧ (a.month < b.month ∨
        (a.month = b.month ∧ a.day < b.day)))) := by
  unfold OptionsAnalysis.PDate.lt
  simp [Bool.or_eq_true, Bool.and_eq_true, beq_iff_eq, decide_eq_true_iff]

theorem get_nearest_expiry_policy (today : OptionsAnalysis.PDate)
    (hval : OptionsAnalysis.validPDate today) :
    OptionsAnalysis.pyWeekday (OptionsAnalysis.get_nearest_expiry today) = 3 ∧
    OptionsAnalysis.PDate.lt (OptionsAnalysis.get_nearest_expiry today) today = false ∧
    1 ≤ (OptionsAnalysis.get_nearest_expiry today).day ∧
    (OptionsAnalysis.get_nearest_expiry today).day ≤
      OptionsAnalysis.daysInMonth (OptionsAnalysis.get_nearest_expiry today).year
        (OptionsAnalysis.get_nearest_expiry today).month ∧
    (∀ d, 1 ≤ d →
      d ≤ OptionsAnalysis.daysInMonth (OptionsAnalysis.get_nearest_expiry today).year
        (OptionsAnalysis.get_nearest_expiry today).month →
      OptionsAnalysis.pyWeekday ⟨(OptionsAnalysis.get_nearest_expiry today).year,
        (OptionsAnalysis.get_nearest_expiry today).month, d⟩ = 3 →
      d ≤ (OptionsAnalysis.get_nearest_expiry today).day) := by
  obtain ⟨hm1, hm2, hd1, hd2⟩ := hval
  unfold OptionsAnalysis.get_nearest_expiry
  dsimp only
  by_cases hlt : OptionsAnalysis.PDate.lt
      (OptionsAnalysis.lastThursday today.year today.month) today = true
  · rw [if_pos hlt]
    rcases hnm : OptionsAnalysis.nextMonth today.year today.month with ⟨y2, m2⟩
    dsimp only
    have hspec := lastThursday_spec y2 m2
    obtain ⟨hy, hmm, hdd1, hdd2, hw, hlast⟩ := hspec
    have hym : (y2 = today.year + 1 ∧ m2 = 1 ∧ today.month = 12) ∨
        (y2 = today.year ∧ m2 = today.month + 1) := by
      unfold OptionsAnalysis.nextMonth at hnm
      by_cases h12 : today.month = 12
      · rw [if_pos h12] at hnm
        exact Or.inl ⟨by injection hnm with a b; omega, by injection hnm with a b; omega, h12⟩
      · rw [if_neg h12] at hnm
        exact Or.inr ⟨by injection hnm with a b; omega, by injection hnm with a b; omega⟩
    refine ⟨hw, ?_, hdd1, by rw [hy, hmm]; exact hdd2, ?_⟩
    · rw [← Bool.not_eq_true, PDate_lt_iff]
      rcases hym with ⟨ha, hb, hc⟩ | ⟨ha, hb⟩ <;>
        · intro hcon
          rw [hy, hmm] at hcon
          omega
    · intro d h1 h2 h3
      rw [hy, hmm] at h2 h3
      exact hlast d h1 h2 h3
  · rw [if_neg hlt]
    have hspec := lastThursday_spec today.year today.month
    obtain ⟨hy, hmm, hdd1, hdd2, hw, hlast⟩ := hspec
    refine ⟨hw, by simpa using hlt, hdd1, by rw [hy, hmm]; exact hdd2, ?_⟩
    intro d h1 h2 h3
    rw [hy, hmm] at h2 h3
    exact hlast d h1 h2 h3

/-- Claim C10: the class body of `OptionsAnalysis` defines
`get_option_trading_symbol` twice; Python keeps only the later binding, so
the trading symbol actually produced for any non-empty symbol, non-zero
strike, option type and expiry is always
`symbol + DDMonYY-uppercase expiry + strike + type`
(e.g. INFY30MAR231600CE); the shadowed first definition's monthly `MonYY`
format (INFYMAR231600CE) is never produced; and the expiry the class selects
is always the monthly policy's date: the last Thursday of the current month
(Python weekday 3), rolled to the next month once past, and never before
`today`. -/
theorem C10_trading_symbol_shadowing :
    (∀ (symbol : String) (strike : ℤ) (ot : String)
        (e today : OptionsAnalysis.PDate),
      ¬ symbol = "" → ¬ strike = 0 → ¬ ot = "" →
      OptionsAnalysis.get_option_trading_symbol symbol strike ot (some e) today =
        some (symbol ++ OptionsAnalysis.fmtDDMonYY e ++ toString strike ++ ot)) ∧
    OptionsAnalysis.get_option_trading_symbol "INFY" 1600 "CE"
      (some ⟨2023, 3, 30⟩) ⟨2023, 3, 1⟩ = some "INFY30MAR231600CE" ∧
    OptionsAnalysis.get_option_trading_symbol_shadowed "INFY" 1600 "CE"
      (some ⟨2023, 3, 30⟩) ⟨2023, 3, 1⟩ = some "INFYMAR231600CE" ∧
    ¬ ("INFY30MAR231600CE" = "INFYMAR231600CE") ∧
    (∀ today : OptionsAnalysis.PDate, OptionsAnalysis.validPDate today →
      OptionsAnalysis.pyWeekday (OptionsAnalysis.get_nearest_expiry today) = 3 ∧
      OptionsAnalysis.PDate.lt (OptionsAnalysis.get_nearest_expiry today) today = false ∧
      (∀ d, 1 ≤ d →
        d ≤ OptionsAnalysis.daysInMonth (OptionsAnalysis.get_nearest_expiry today).year
          (OptionsAnalysis.get_nearest_expiry today).month →
        OptionsAnalysis.pyWeekday ⟨(OptionsAnalysis.get_nearest_expiry today).year,
          (OptionsAnalysis.get_nearest_expiry today).month, d⟩ = 3 →
        d ≤ (OptionsAnalysis.get_nearest_expiry today).day)) := by
  refine ⟨?_, by decide, by decide, by decide, ?_⟩
  · intro symbol strike ot e today hs hst hot
    unfold OptionsAnalysis.get_option_trading_symbol
    rw [if_neg (by tauto)]
    rfl
  · intro today hval
    have h := get_nearest_expiry_policy today hval
    exact ⟨h.1, h.2.1, h.2.2.2.2⟩

/-- Claim C10 witness: the format statement applied to the INFY example, and
the expiry policy applied to today = 2023-03-15 (whose monthly expiry
2023-03-30 is a Thursday not before today). -/
theorem C10_trading_symbol_shadowing_witness :
    OptionsAnalysis.get_option_trading_symbol "INFY" 1600 "CE"
        (some ⟨2023, 3, 30⟩) ⟨2023, 3, 1⟩ =
      some ("INFY" ++ OptionsAnalysis.fmtDDMonYY ⟨2023, 3, 30⟩ ++
        toString (1600 : ℤ) ++ "CE") ∧
    OptionsAnalysis.validPDate ⟨2023, 3, 15⟩ ∧
    OptionsAnalysis.pyWeekday (OptionsAnalysis.get_nearest_expiry ⟨2023, 3, 15⟩) = 3 ∧
    OptionsAnalysis.PDate.lt (OptionsAnalysis.get_nearest_expiry ⟨2023, 3, 15⟩)
      ⟨2023, 3, 15⟩ = false :=
  ⟨(C10_trading_symbol_shadowing).1 "INFY" 1600 "CE" ⟨2023, 3, 30⟩ ⟨2023, 3, 1⟩
      (by decide) (by decide) (by decide),
   by decide,
   ((C10_trading_symbol_shadowing).2.2.2.2 ⟨2023, 3, 15⟩ (by decide)).1,
   ((C10_trading_symbol_shadowing).2.2.2.2 ⟨2023, 3, 15⟩ (by decide)).2.1⟩
